import Mathlib

/-!
# GPU mesh deformer: `DeformerDXR::queueDeformCommand`

A shallow embedding of `Plugin/rths/DXR/rthsDeformerDXR.cpp`.

* The D3D12 device is external.  Its two fallible answers that the source tests,
  `CreateCommittedResource` and `Map`, are given by a `DeviceEnv`: the outcome of the
  n-th creation and of the n-th mapping.  Descriptor-heap creation, whose result the
  source never tests, is taken to succeed.
* A null `ID3D12ResourcePtr` is `none`.  A member call through a null pointer and a read
  past the end of an asset array are undefined behaviour in the source; the embedding
  reports them as a `Fault`.  `writeBuffer` has no size test: a body that writes more than
  the buffer holds runs to its end and the call goes on, and the embedding does the same,
  recording everything the body wrote from the start of the mapping.
* The sizes of the asset (vertex count, list lengths) are values of C++ `int`.  What the code
  computes from them wraps as in the source: a byte size is a `size_t` product narrowed to
  the `int size` parameter of `createBuffer` and sign-extended by `desc.Width = size`, the
  running `weight_count` is an `int`, an element count is an `int` stored as `UINT`.
* Floats and matrices are abstract types `F` and `M`: the code only copies floats, and only
  multiplies and inverts matrices.
* `inst_dxr.base`, `inst_dxr.mesh->base` and `mesh_dxr.vertex_buffer` are dereferenced
  unconditionally by the source and are taken to be set.  The mesh wrapper an instance
  points to is stored inside the instance state; two instances of one mesh are run by
  handing the wrapper left by the first call to the second instance.
-/

namespace rths

/-! ## Data model -/

/-- Undefined behaviour of the source that the embedding makes explicit. -/
inductive Fault
  | nullDeref
  | outOfRange
  deriving DecidableEq, Repr

/-- Values of `enum DeformFlag`. -/
def DF_APPLY_BLENDSHAPE : Nat := 1

/-- Values of `enum DeformFlag`. -/
def DF_APPLY_SKINNING : Nat := 2

/-- A value narrowed to a 32-bit `int` (two's complement wrap-around). -/
def int32 (z : Int) : Int := (z + 2147483648) % 4294967296 - 2147483648

/-- A value converted to `size_t` or `UINT64` (64-bit wrap-around, a negative `int` is
sign-extended). -/
def uint64 (z : Int) : Nat := (z % 18446744073709551616).toNat

/-- A value converted to `UINT` (32-bit wrap-around). -/
def uint32 (z : Int) : Nat := (z % 4294967296).toNat

/-- The `int size` argument `createBuffer` receives for a byte size that the caller computes
as a `size_t` product: the product wraps at 64 bits and is narrowed to `int`. -/
def size_arg (n : Nat) : Int := int32 (uint64 n)

/-- The source's `struct BoneCount`. -/
structure BoneCount where
  weight_count : Int
  weight_offset : Int
  deriving DecidableEq, Repr

/-- The source's `struct MeshInfo`. -/
structure MeshInfo where
  vertex_count : Nat
  vertex_stride : Nat
  deform_flags : Nat
  blendshape_count : Nat
  deriving DecidableEq, Repr

abbrev sizeof_float : Nat := 4
abbrev sizeof_float4 : Nat := 16
abbrev sizeof_float4x4 : Nat := 64
abbrev sizeof_BoneCount : Nat := 8
abbrev sizeof_BoneWeight : Nat := 8
abbrev sizeof_MeshInfo : Nat := 16

abbrev float3 (F : Type) : Type := F × F × F
abbrev float4 (F : Type) : Type := F × F × F × F

/-- Modelled from the spec: `to_float4` (rthsTypes.h is not part of the sources) extends a
three-component delta by a fourth component, "one vec4 per vertex per blendshape". -/
def to_float4 {F : Type} (v : float3 F) (w : F) : float4 F := (v.1, v.2.1, v.2.2, w)

/-- Modelled from the spec: `align_to` (rthsMisc.h is not part of the sources) rounds a size
up to a multiple of the alignment. -/
def align_to (alignment v : Nat) : Nat := (v + alignment - 1) / alignment * alignment

/-- Matrix arithmetic used by the skinning code: `operator*` and `invert` on `float4x4`. -/
structure MatrixOps (M : Type) where
  mul : M → M → M
  invert : M → M

/-- One delta frame of a blendshape (`frames[k].delta`). -/
structure BlendshapeFrameData (F : Type) where
  delta : List (float3 F)
  weight : F
  deriving DecidableEq, Repr

/-- A blendshape of the mesh asset: its ordered delta frames. -/
structure BlendshapeData (F : Type) where
  frames : List (BlendshapeFrameData F)
  deriving DecidableEq, Repr

/-- An entry of the flattened weight list: `{ weight, index }`. -/
structure BoneWeight (F : Type) where
  weight : F
  index : Nat
  deriving DecidableEq, Repr

/-- The skin of the mesh asset (`mesh.skin`). -/
structure SkinData (F M : Type) where
  bindposes : List M
  bone_counts : List Nat
  weights : List (BoneWeight F)
  deriving DecidableEq, Repr

/-- The mesh asset (`*inst_dxr.mesh->base`), read-only for the deformer. -/
structure MeshData (F M : Type) where
  vertex_count : Nat
  blendshapes : List (BlendshapeData F)
  skin : SkinData F M
  deriving DecidableEq, Repr

/-- The instance data (`*inst_dxr.base`), read-only for the deformer. -/
structure MeshInstanceData (F M : Type) where
  transform : M
  bones : List M
  blendshape_weights : List F
  deriving DecidableEq, Repr

/-- The two heap kinds the source passes: `kDefaultHeapProps` and `kUploadHeapProps`. -/
inductive HeapKind
  | default
  | upload
  deriving DecidableEq, Repr

/-- A committed buffer: its handle `id`, the `Width` in bytes it was created with, and the
elements written from the start of its mapped memory so far (`writeBuffer` has no size test,
so they run past `width` when a body wrote more than the buffer holds). -/
structure Resource (α : Type) where
  id : Nat
  width : Nat
  heap : HeapKind
  uav : Bool
  data : List α
  deriving DecidableEq, Repr

/-- A view written into a descriptor slot by `createUAV`, `createSRV` or `createCBV`. -/
inductive View
  | uav (res : Option Nat) (num_elements stride : Nat)
  | srv (res : Option Nat) (num_elements stride : Nat)
  | cbv (location size : Nat)
  deriving DecidableEq, Repr

/-- A shader-visible descriptor heap; a slot never written is `none`. -/
structure DescriptorHeap where
  id : Nat
  slots : List (Option View)
  deriving DecidableEq, Repr

/-- A CPU/GPU handle pair: both are the slot's offset in the instance's heap. -/
structure DescriptorHandleDXR where
  hcpu : Nat
  hgpu : Nat
  deriving DecidableEq, Repr

/-- Modelled from the spec: `DescriptorHeapAllocatorDXR` (its header is not part of the
sources): "`allocate()` returns the next unused CPU/GPU handle pair, advancing an internal
cursor". -/
structure DescriptorHeapAllocatorDXR where
  cursor : Nat
  deriving DecidableEq, Repr

/-- Modelled from the spec: `DescriptorHeapAllocatorDXR::allocate`, the next handle pair and
the advanced allocator. -/
def DescriptorHeapAllocatorDXR.allocate (a : DescriptorHeapAllocatorDXR) :
    DescriptorHandleDXR × DescriptorHeapAllocatorDXR :=
  (⟨a.cursor, a.cursor⟩, ⟨a.cursor + 1⟩)

/-- What is recorded on `m_cmd_list`. -/
inductive Command
  | SetComputeRootSignature
  | SetDescriptorHeaps (heap : Option Nat)
  | SetComputeRootDescriptorTable (index : Nat) (hgpu : Nat)
  | Dispatch (x y z : Nat)
  deriving DecidableEq, Repr

/-- The mesh wrapper `MeshDataDXR`: the asset and the mesh-level GPU cache. -/
structure MeshDataDXR (F M : Type) where
  base : MeshData F M
  vertex_buffer : Option Nat
  vertex_stride : Nat
  bs_point_delta : Option (Resource (float4 F))
  bone_counts : Option (Resource BoneCount)
  bone_weights : Option (Resource (BoneWeight F))
  mesh_info : Option (Resource MeshInfo)
  deriving DecidableEq, Repr

/-- The instance wrapper `MeshInstanceDataDXR`: the instance data, its mesh wrapper and the
instance-level GPU state. -/
structure MeshInstanceDataDXR (F M : Type) where
  base : MeshInstanceData F M
  mesh : Option (MeshDataDXR F M)
  srvuav_heap : Option DescriptorHeap
  deformed_vertices : Option (Resource (float4 F))
  blendshape_weights : Option (Resource F)
  bones : Option (Resource M)
  deriving DecidableEq, Repr

/-- The answers of the D3D12 device: whether the n-th `CreateCommittedResource` and the
n-th `Map` succeed. -/
structure DeviceEnv where
  createOk : Nat → Bool
  mapOk : Nat → Bool

/-- The deformer: root signature and pipeline state (set when built), the command list,
the number of device calls made so far, and the diagnostics passed to `SetErrorLog`. -/
structure DeformerDXR where
  m_rootsig_deform : Bool
  m_pipeline_state : Bool
  m_cmd_list : List Command
  resources_created : Nat
  maps_issued : Nat
  heaps_created : Nat
  error_log : List String
  deriving DecidableEq, Repr

/-! ## Helpers of the class -/

/-- Number of descriptor ranges, `_countof(g_descriptor_ranges)`. -/
def g_descriptor_ranges_count : Nat := 8

/-- Modelled from the spec: `SetErrorLog` (rthsLog.h is not part of the sources) records a
diagnostic string. -/
def SetErrorLog (self : DeformerDXR) (msg : String) : DeformerDXR :=
  { self with error_log := self.error_log ++ [msg] }

/-- `DeformerDXR::createSRV`: writes a shader-resource view at `dst`; the `int` arguments
are stored in the `UINT` fields `NumElements` and `StructureByteStride`. -/
def createSRV (heap : Option DescriptorHeap) (dst : Nat) (res : Option Nat)
    (num_elements stride : Int) : Option DescriptorHeap :=
  heap.map fun h =>
    { h with slots := h.slots.set dst (some (View.srv res (uint32 num_elements) (uint32 stride))) }

/-- `DeformerDXR::createUAV`: writes an unordered-access view at `dst`; the `int` arguments
are stored in the `UINT` fields `NumElements` and `StructureByteStride`. -/
def createUAV (heap : Option DescriptorHeap) (dst : Nat) (res : Option Nat)
    (num_elements stride : Int) : Option DescriptorHeap :=
  heap.map fun h =>
    { h with slots := h.slots.set dst (some (View.uav res (uint32 num_elements) (uint32 stride))) }

/-- `DeformerDXR::createCBV`: calls `res->GetGPUVirtualAddress()`, so a null `res` faults;
the `int size` is stored in the `UINT` field `SizeInBytes`. -/
def createCBV (heap : Option DescriptorHeap) (dst : Nat) (res : Option Nat) (size : Int) :
    Except Fault (Option DescriptorHeap) :=
  match res with
  | none => .error .nullDeref
  | some r =>
    .ok (heap.map fun h => { h with slots := h.slots.set dst (some (View.cbv r (uint32 size))) })

/-- `DeformerDXR::createBuffer`: `size` is the `int` parameter, `desc.Width = size` stores it
as `UINT64`; a failed creation is logged and gives a null handle. -/
def createBuffer {α : Type} (env : DeviceEnv) (self : DeformerDXR) (size : Int)
    (heap_props : HeapKind) (uav : Bool) : DeformerDXR × Option (Resource α) :=
  let n := self.resources_created
  let self1 := { self with resources_created := n + 1 }
  if env.createOk n then
    (self1, some { id := n, width := uint64 size, heap := heap_props, uav := uav, data := [] })
  else
    (SetErrorLog self1 "CreateCommittedResource() failed\n", none)

/-- `DeformerDXR::writeBuffer`: `res->Map` faults on a null `res`; when the mapping
succeeds the body runs and writes its elements from the start of the mapped memory (the
captured locals `s` may change) and the function returns true, without any test of the
buffer's size; when the mapping fails the failure is logged and the body is not run.  The
last component is the returned `bool`. -/
def writeBuffer {α σ : Type} (env : DeviceEnv) (self : DeformerDXR) (res : Option (Resource α))
    (s : σ) (body : σ → Except Fault (List α × σ)) :
    Except Fault (DeformerDXR × Option (Resource α) × σ × Bool) :=
  match res with
  | none => .error .nullDeref
  | some r =>
    let n := self.maps_issued
    let self1 := { self with maps_issued := n + 1 }
    if env.mapOk n then
      match body s with
      | .error e => .error e
      | .ok (xs, s1) => .ok (self1, some { r with data := xs ++ r.data.drop xs.length }, s1, true)
    else
      .ok (SetErrorLog self1 "Map() failed\n", some r, s, false)

/-! ## The loops of `queueDeformCommand` -/

/-- Inner loop of the point-delta body:
`for (vi = 0; vi < vertex_count; ++vi) *dst++ = to_float4(delta[vi], 0.0f)`;
`n` iterations remain, the next index is `vi`. -/
def copyDelta {F : Type} (zero : F) (delta : List (float3 F)) :
    Nat → Nat → Except Fault (List (float4 F))
  | 0, _ => .ok []
  | n + 1, vi =>
    match delta[vi]? with
    | none => .error .outOfRange
    | some d =>
      match copyDelta zero delta n (vi + 1) with
      | .error e => .error e
      | .ok rest => .ok (to_float4 d zero :: rest)

/-- Outer loop of the point-delta body: for each `bsi` the deltas of
`mesh.blendshapes[bsi].frames[0]`; `n` iterations remain, the next index is `bsi`. -/
def pointDelta {F : Type} (zero : F) (blendshapes : List (BlendshapeData F))
    (vertex_count : Nat) : Nat → Nat → Except Fault (List (float4 F))
  | 0, _ => .ok []
  | n + 1, bsi =>
    match blendshapes[bsi]? with
    | none => .error .outOfRange
    | some bs =>
      match bs.frames[0]? with
      | none => .error .outOfRange
      | some fr =>
        match copyDelta zero fr.delta vertex_count 0 with
        | .error e => .error e
        | .ok row =>
          match pointDelta zero blendshapes vertex_count n (bsi + 1) with
          | .error e => .error e
          | .ok rest => .ok (row ++ rest)

/-- Body of the bone-count write:
`int n = mesh.skin.bone_counts[vi]; *dst++ = { n, weight_count }; weight_count += n`;
`k` iterations remain, the next index is `vi`, `weight_count` is the captured `int`. -/
def boneCountsLoop (bone_counts : List Nat) :
    Nat → Nat → Int → Except Fault (List BoneCount × Int)
  | 0, _, weight_count => .ok ([], weight_count)
  | k + 1, vi, weight_count =>
    match bone_counts[vi]? with
    | none => .error .outOfRange
    | some c =>
      match boneCountsLoop bone_counts k (vi + 1) (int32 (weight_count + int32 c)) with
      | .error e => .error e
      | .ok (rest, wc) =>
        .ok ({ weight_count := int32 c, weight_offset := weight_count } :: rest, wc)

/-- Body of the bone-weight write: `*dst++ = { w1.weight, w1.index }` for `wi < weight_count`. -/
def boneWeightsLoop {F : Type} (weights : List (BoneWeight F)) :
    Nat → Nat → Except Fault (List (BoneWeight F))
  | 0, _ => .ok []
  | k + 1, wi =>
    match weights[wi]? with
    | none => .error .outOfRange
    | some w1 =>
      match boneWeightsLoop weights k (wi + 1) with
      | .error e => .error e
      | .ok rest => .ok ({ weight := w1.weight, index := w1.index } :: rest)

/-- Body of the bone-matrix write:
`*dst++ = mesh.skin.bindposes[bi] * inst.bones[bi] * iroot`. -/
def boneMatricesLoop {M : Type} (ops : MatrixOps M) (bindposes bones : List M) (iroot : M) :
    Nat → Nat → Except Fault (List M)
  | 0, _ => .ok []
  | k + 1, bi =>
    match bindposes[bi]?, bones[bi]? with
    | some bp, some b =>
      match boneMatricesLoop ops bindposes bones iroot k (bi + 1) with
      | .error e => .error e
      | .ok rest => .ok (ops.mul (ops.mul bp b) iroot :: rest)
    | _, _ => .error .outOfRange

/-- A write body that changes no captured local. -/
def plainBody {α : Type} (xs : Except Fault (List α)) : Unit → Except Fault (List α × Unit) :=
  fun _ => xs.map fun l => (l, ())

/-! ## `queueDeformCommand` -/

/-- The state the body of `queueDeformCommand` works on: the deformer, the instance wrapper
and the mesh wrapper `*inst_dxr.mesh`. -/
structure Ctx (F M : Type) where
  self : DeformerDXR
  inst_dxr : MeshInstanceDataDXR F M
  mesh_dxr : MeshDataDXR F M

/-- The eight handles, allocated in the source's order. -/
structure Handles where
  hdst_vertices : DescriptorHandleDXR
  hbase_vertices : DescriptorHandleDXR
  hbs_point_delta : DescriptorHandleDXR
  hbs_point_weights : DescriptorHandleDXR
  hbone_counts : DescriptorHandleDXR
  hbone_weights : DescriptorHandleDXR
  hbone_matrices : DescriptorHandleDXR
  hmesh_info : DescriptorHandleDXR
  deriving DecidableEq, Repr

/-- Lines 141 to 149: eight `handle_allocator.allocate()` calls on a new allocator. -/
def allocateHandles : Handles :=
  let a0 : DescriptorHeapAllocatorDXR := ⟨0⟩
  let r0 := a0.allocate
  let r1 := r0.2.allocate
  let r2 := r1.2.allocate
  let r3 := r2.2.allocate
  let r4 := r3.2.allocate
  let r5 := r4.2.allocate
  let r6 := r5.2.allocate
  let r7 := r6.2.allocate
  { hdst_vertices := r0.1, hbase_vertices := r1.1, hbs_point_delta := r2.1,
    hbs_point_weights := r3.1, hbone_counts := r4.1, hbone_weights := r5.1,
    hbone_matrices := r6.1, hmesh_info := r7.1 }

/-- Lines 134 to 140: create the instance's descriptor heap when it has none. -/
def setupDescriptors {F M : Type} (c : Ctx F M) : Ctx F M :=
  match c.inst_dxr.srvuav_heap with
  | some _ => c
  | none =>
    { c with
      self := { c.self with heaps_created := c.self.heaps_created + 1 }
      inst_dxr := { c.inst_dxr with
        srvuav_heap := some { id := c.self.heaps_created,
                              slots := List.replicate g_descriptor_ranges_count none } } }

/-- Lines 151 to 159: the output buffer and the views of slots 0 and 1. -/
def deformedVertices {F M : Type} (env : DeviceEnv) (h : Handles) (c : Ctx F M) : Ctx F M :=
  let vertex_count := c.mesh_dxr.base.vertex_count
  match c.inst_dxr.deformed_vertices with
  | some _ => c
  | none =>
    let r := createBuffer env c.self (size_arg (sizeof_float4 * vertex_count))
      HeapKind.default true
    let heap1 := createUAV c.inst_dxr.srvuav_heap h.hdst_vertices.hcpu (r.2.map (·.id))
      vertex_count sizeof_float4
    let heap2 := createSRV heap1 h.hbase_vertices.hcpu c.mesh_dxr.vertex_buffer
      vertex_count c.mesh_dxr.vertex_stride
    { c with
      self := r.1
      inst_dxr := { c.inst_dxr with deformed_vertices := r.2, srvuav_heap := heap2 } }

/-- Lines 163 to 175: build the mesh-level point-delta buffer when the mesh has none. -/
def blendshapeDelta {F M : Type} (env : DeviceEnv) (zero : F) (h : Handles) (c : Ctx F M) :
    Except Fault (Ctx F M) :=
  let vertex_count := c.mesh_dxr.base.vertex_count
  let blendshape_count := c.inst_dxr.base.blendshape_weights.length
  match c.mesh_dxr.bs_point_delta with
  | some _ => .ok c
  | none =>
    let r := createBuffer env c.self (size_arg (sizeof_float4 * vertex_count * blendshape_count))
      HeapKind.upload false
    let heap1 := createSRV c.inst_dxr.srvuav_heap h.hbs_point_delta.hcpu (r.2.map (·.id))
      (int32 (vertex_count * blendshape_count)) sizeof_float4
    match writeBuffer env r.1 r.2 ()
        (plainBody (pointDelta zero c.mesh_dxr.base.blendshapes vertex_count blendshape_count 0)) with
    | .error e => .error e
    | .ok w =>
      .ok { self := w.1
            inst_dxr := { c.inst_dxr with srvuav_heap := heap1 }
            mesh_dxr := { c.mesh_dxr with bs_point_delta := w.2.1 } }

/-- Lines 178 to 188: create the instance's weight buffer when it has none, then copy the
instance's weights into it ("update on every frame"). -/
def blendshapeWeights {F M : Type} (env : DeviceEnv) (h : Handles) (c : Ctx F M) :
    Except Fault (Ctx F M) :=
  let blendshape_count := c.inst_dxr.base.blendshape_weights.length
  let c1 : Ctx F M :=
    match c.inst_dxr.blendshape_weights with
    | some _ => c
    | none =>
      let r := createBuffer env c.self (size_arg (sizeof_float * blendshape_count))
        HeapKind.upload false
      { c with
        self := r.1
        inst_dxr := { c.inst_dxr with
          blendshape_weights := r.2
          srvuav_heap := createSRV c.inst_dxr.srvuav_heap h.hbs_point_weights.hcpu
            (r.2.map (·.id)) blendshape_count sizeof_float } }
  match writeBuffer env c1.self c1.inst_dxr.blendshape_weights ()
      (plainBody (.ok c.inst_dxr.base.blendshape_weights)) with
  | .error e => .error e
  | .ok w => .ok { c1 with self := w.1, inst_dxr := { c1.inst_dxr with blendshape_weights := w.2.1 } }

/-- Lines 161 to 189: the blendshape section. -/
def blendshape {F M : Type} (env : DeviceEnv) (zero : F) (h : Handles) (c : Ctx F M) :
    Except Fault (Ctx F M) :=
  if c.inst_dxr.base.blendshape_weights.length > 0 then
    match blendshapeDelta env zero h c with
    | .error e => .error e
    | .ok c1 => blendshapeWeights env h c1
  else .ok c

/-- Lines 194 to 217: build the mesh-level bone-count and bone-weight buffers when the
mesh has no bone-count buffer. -/
def boneCountsAndWeights {F M : Type} (env : DeviceEnv) (h : Handles) (c : Ctx F M) :
    Except Fault (Ctx F M) :=
  let vertex_count := c.mesh_dxr.base.vertex_count
  match c.mesh_dxr.bone_counts with
  | some _ => .ok c
  | none =>
    let r := createBuffer env c.self (size_arg (sizeof_BoneCount * vertex_count))
      HeapKind.upload false
    let heap1 := createSRV c.inst_dxr.srvuav_heap h.hbone_counts.hcpu (r.2.map (·.id))
      vertex_count sizeof_BoneCount
    match writeBuffer env r.1 r.2 (0 : Int)
        (boneCountsLoop c.mesh_dxr.base.skin.bone_counts vertex_count 0) with
    | .error e => .error e
    | .ok w =>
      let weight_count : Int := w.2.2.1
      let r2 := createBuffer env w.1 (size_arg (sizeof_BoneWeight * uint64 weight_count))
        HeapKind.upload false
      let heap2 := createSRV heap1 h.hbone_weights.hcpu (r2.2.map (·.id))
        weight_count sizeof_BoneWeight
      match writeBuffer env r2.1 r2.2 ()
          (plainBody (boneWeightsLoop c.mesh_dxr.base.skin.weights weight_count.toNat 0)) with
      | .error e => .error e
      | .ok w2 =>
        .ok { self := w2.1
              inst_dxr := { c.inst_dxr with srvuav_heap := heap2 }
              mesh_dxr := { c.mesh_dxr with bone_counts := w.2.1, bone_weights := w2.2.1 } }

/-- Lines 220 to 234: create the instance's bone-matrix buffer when it has none, then write
the bone matrices into it ("update on every frame"). -/
def boneMatrices {F M : Type} (env : DeviceEnv) (ops : MatrixOps M) (h : Handles) (c : Ctx F M) :
    Except Fault (Ctx F M) :=
  let bone_count := c.inst_dxr.base.bones.length
  let c1 : Ctx F M :=
    match c.inst_dxr.bones with
    | some _ => c
    | none =>
      let r := createBuffer env c.self (size_arg (sizeof_float4x4 * bone_count))
        HeapKind.upload false
      { c with
        self := r.1
        inst_dxr := { c.inst_dxr with
          bones := r.2
          srvuav_heap := createSRV c.inst_dxr.srvuav_heap h.hbone_matrices.hcpu
            (r.2.map (·.id)) bone_count sizeof_float4x4 } }
  match writeBuffer env c1.self c1.inst_dxr.bones ()
      (plainBody (boneMatricesLoop ops c.mesh_dxr.base.skin.bindposes c.inst_dxr.base.bones
        (ops.invert c.inst_dxr.base.transform) bone_count 0)) with
  | .error e => .error e
  | .ok w => .ok { c1 with self := w.1, inst_dxr := { c1.inst_dxr with bones := w.2.1 } }

/-- Lines 191 to 235: the skinning section. -/
def skinning {F M : Type} (env : DeviceEnv) (ops : MatrixOps M) (h : Handles) (c : Ctx F M) :
    Except Fault (Ctx F M) :=
  if c.inst_dxr.base.bones.length > 0 then
    match boneCountsAndWeights env h c with
    | .error e => .error e
    | .ok c1 => boneMatrices env ops h c1
  else .ok c

/-- The `MeshInfo` written at lines 243 to 253. -/
def makeMeshInfo (vertex_count vertex_stride blendshape_count bone_count : Nat) : MeshInfo :=
  let flags0 := 0
  let flags1 := if blendshape_count > 0 then flags0 ||| DF_APPLY_BLENDSHAPE else flags0
  let flags2 := if bone_count > 0 then flags1 ||| DF_APPLY_SKINNING else flags1
  { vertex_count := vertex_count
    vertex_stride := vertex_stride / 4
    deform_flags := flags2
    blendshape_count := blendshape_count }

/-- Lines 237 to 255: build the mesh-info constant buffer when the mesh has none. -/
def meshInfo {F M : Type} (env : DeviceEnv) (h : Handles) (c : Ctx F M) :
    Except Fault (Ctx F M) :=
  match c.mesh_dxr.mesh_info with
  | some _ => .ok c
  | none =>
    let size : Int := int32 (align_to 256 sizeof_MeshInfo)
    let r := createBuffer env c.self size HeapKind.upload false
    match createCBV c.inst_dxr.srvuav_heap h.hmesh_info.hcpu (r.2.map (·.id)) size with
    | .error e => .error e
    | .ok heap1 =>
      match writeBuffer env r.1 r.2 ()
          (plainBody (.ok [makeMeshInfo c.mesh_dxr.base.vertex_count c.mesh_dxr.vertex_stride
            c.inst_dxr.base.blendshape_weights.length c.inst_dxr.base.bones.length])) with
      | .error e => .error e
      | .ok w =>
        .ok { self := w.1
              inst_dxr := { c.inst_dxr with srvuav_heap := heap1 }
              mesh_dxr := { c.mesh_dxr with mesh_info := w.2.1 } }

/-- Lines 257 to 272: bind the root signature, the heap and the eight tables, dispatch. -/
def recordDispatch {F M : Type} (h : Handles) (c : Ctx F M) : Ctx F M :=
  { c with
    self := { c.self with
      m_cmd_list := c.self.m_cmd_list ++
        [ Command.SetComputeRootSignature,
          Command.SetDescriptorHeaps (c.inst_dxr.srvuav_heap.map (·.id)),
          Command.SetComputeRootDescriptorTable 0 h.hdst_vertices.hgpu,
          Command.SetComputeRootDescriptorTable 1 h.hbase_vertices.hgpu,
          Command.SetComputeRootDescriptorTable 2 h.hbs_point_delta.hgpu,
          Command.SetComputeRootDescriptorTable 3 h.hbs_point_weights.hgpu,
          Command.SetComputeRootDescriptorTable 4 h.hbone_counts.hgpu,
          Command.SetComputeRootDescriptorTable 5 h.hbone_weights.hgpu,
          Command.SetComputeRootDescriptorTable 6 h.hbone_matrices.hgpu,
          Command.SetComputeRootDescriptorTable 7 h.hmesh_info.hgpu,
          Command.Dispatch c.mesh_dxr.base.vertex_count 1 1 ] } }

/-- Lines 133 to 272: everything after the early returns. -/
def deformBody {F M : Type} (env : DeviceEnv) (zero : F) (ops : MatrixOps M) (c : Ctx F M) :
    Except Fault (Ctx F M) :=
  let c1 := setupDescriptors c
  let h := allocateHandles
  let c2 := deformedVertices env h c1
  match blendshape env zero h c2 with
  | .error e => .error e
  | .ok c3 =>
    match skinning env ops h c3 with
    | .error e => .error e
    | .ok c4 =>
      match meshInfo env h c4 with
      | .error e => .error e
      | .ok c5 => .ok (recordDispatch h c5)

/-- `DeformerDXR::queueDeformCommand`: the returned `bool`, the deformer and the instance
wrapper (with its mesh wrapper) after the call, or the fault the call runs into. -/
def queueDeformCommand {F M : Type} (env : DeviceEnv) (zero : F) (ops : MatrixOps M)
    (self : DeformerDXR) (inst_dxr : MeshInstanceDataDXR F M) :
    Except Fault (Bool × DeformerDXR × MeshInstanceDataDXR F M) :=
  if !self.m_rootsig_deform || !self.m_pipeline_state || inst_dxr.mesh.isNone then
    .ok (false, self, inst_dxr)
  else
    match inst_dxr.mesh with
    | none => .ok (false, self, inst_dxr)
    | some mesh_dxr =>
      if inst_dxr.base.blendshape_weights.length == 0 && inst_dxr.base.bones.length == 0 then
        .ok (false, self, inst_dxr)
      else
        match deformBody env zero ops
            { self := self, inst_dxr := inst_dxr, mesh_dxr := mesh_dxr } with
        | .error e => .error e
        | .ok c => .ok (true, c.self, { c.inst_dxr with mesh := some c.mesh_dxr })

/-! ## Conditions on the input of a call -/

/-- The asset holds the data the loops of a call read: for every blendshape weight of the
instance a blendshape whose first frame has a delta per vertex and, when the instance has
bones, a bone count per vertex, the weights these counts add up to (an `int`) and a bind
pose per bone. -/
def AssetInRange {F M : Type} (inst : MeshInstanceData F M) (mesh : MeshData F M) : Prop :=
  (∀ bsi, bsi < inst.blendshape_weights.length → ∃ bs fr,
    mesh.blendshapes[bsi]? = some bs ∧ bs.frames[0]? = some fr ∧
    mesh.vertex_count ≤ fr.delta.length) ∧
  (0 < inst.bones.length →
    mesh.vertex_count ≤ mesh.skin.bone_counts.length ∧
    (mesh.skin.bone_counts.take mesh.vertex_count).sum < 2147483648 ∧
    (mesh.skin.bone_counts.take mesh.vertex_count).sum ≤ mesh.skin.weights.length ∧
    inst.bones.length ≤ mesh.skin.bindposes.length)

/-- Every byte size a call computes for the instance and its mesh fits the `int size`
parameter of `createBuffer`: the output, point-delta, weight, bone-count, bone-weight and
bone-matrix buffers. -/
def SizesFit {F M : Type} (inst : MeshInstanceData F M) (mesh : MeshData F M) : Prop :=
  sizeof_float4 * mesh.vertex_count < 2147483648 ∧
  sizeof_float4 * mesh.vertex_count * inst.blendshape_weights.length < 2147483648 ∧
  sizeof_float * inst.blendshape_weights.length < 2147483648 ∧
  sizeof_BoneCount * mesh.vertex_count < 2147483648 ∧
  sizeof_BoneWeight * (mesh.skin.bone_counts.take mesh.vertex_count).sum < 2147483648 ∧
  sizeof_float4x4 * inst.bones.length < 2147483648

/-- An instance wrapper on which no call was made yet: no descriptor heap and none of the
instance-level buffers. -/
def FreshInstance {F M : Type} (inst_dxr : MeshInstanceDataDXR F M) : Prop :=
  inst_dxr.srvuav_heap = none ∧ inst_dxr.deformed_vertices = none ∧
  inst_dxr.blendshape_weights = none ∧ inst_dxr.bones = none

/-- A mesh wrapper whose GPU cache is empty: none of the mesh-level buffers. -/
def FreshMesh {F M : Type} (mesh_dxr : MeshDataDXR F M) : Prop :=
  mesh_dxr.bs_point_delta = none ∧ mesh_dxr.bone_counts = none ∧
  mesh_dxr.bone_weights = none ∧ mesh_dxr.mesh_info = none

/-! ## Concrete data for the examples -/

/-- Two-by-two integer matrices, a small stand-in for `float4x4` in the examples. -/
structure Mat2 where
  a : Int
  b : Int
  c : Int
  d : Int
  deriving DecidableEq, Repr

/-- Matrix product and, as `invert`, the adjugate (the inverse of a matrix of determinant 1). -/
def exampleOps : MatrixOps Mat2 where
  mul x y := ⟨x.a * y.a + x.b * y.c, x.a * y.b + x.b * y.d,
              x.c * y.a + x.d * y.c, x.c * y.b + x.d * y.d⟩
  invert x := ⟨x.d, -x.b, -x.c, x.a⟩

/-- The identity matrix. -/
def exampleIdentity : Mat2 := ⟨1, 0, 0, 1⟩

/-- A device on which every creation and every mapping succeeds. -/
def envOk : DeviceEnv := ⟨fun _ => true, fun _ => true⟩

/-- A device on which every mapping succeeds and every creation but the one numbered `k`. -/
def envCreateFailsAt (k : Nat) : DeviceEnv := ⟨fun n => decide (n ≠ k), fun _ => true⟩

/-- A deformer whose root signature and pipeline state were built, before any call. -/
def exampleDeformer : DeformerDXR :=
  { m_rootsig_deform := true, m_pipeline_state := true, m_cmd_list := [],
    resources_created := 0, maps_issued := 0, heaps_created := 0, error_log := [] }

/-- A mesh asset with two vertices, two blendshapes of two frames each, and a two-bone skin. -/
def exampleMesh : MeshData Int Mat2 :=
  { vertex_count := 2
    blendshapes :=
      [ ⟨[⟨[(1, 2, 3), (4, 5, 6)], 1⟩, ⟨[(70, 70, 70), (80, 80, 80)], 2⟩]⟩,
        ⟨[⟨[(-1, -2, -3), (-4, -5, -6)], 1⟩, ⟨[(90, 90, 90), (95, 95, 95)], 2⟩]⟩ ]
    skin :=
      { bindposes := [⟨1, 1, 0, 1⟩, ⟨1, 0, 2, 1⟩]
        bone_counts := [1, 2]
        weights := [⟨10, 0⟩, ⟨6, 0⟩, ⟨4, 1⟩] } }

/-- The wrapper of `exampleMesh` before any call: no mesh-level buffer built yet. -/
def exampleMeshDXR : MeshDataDXR Int Mat2 :=
  { base := exampleMesh, vertex_buffer := some 1000, vertex_stride := 12,
    bs_point_delta := none, bone_counts := none, bone_weights := none, mesh_info := none }

/-- An instance wrapper before any call: no heap and no instance-level buffer yet. -/
def freshInstance (base : MeshInstanceData Int Mat2) (mesh : Option (MeshDataDXR Int Mat2)) :
    MeshInstanceDataDXR Int Mat2 :=
  { base := base, mesh := mesh, srvuav_heap := none, deformed_vertices := none,
    blendshape_weights := none, bones := none }

/-- Instance data with two blendshape weights and no bones. -/
def baseBlend : MeshInstanceData Int Mat2 :=
  { transform := exampleIdentity, bones := [], blendshape_weights := [5, 7] }

/-- Instance data with neither bones nor blendshape weights. -/
def baseStatic : MeshInstanceData Int Mat2 :=
  { transform := exampleIdentity, bones := [], blendshape_weights := [] }

/-- The deformer a call leaves (the deformer itself when the call faults). -/
def deformerAfter {F M : Type} (self : DeformerDXR)
    (r : Except Fault (Bool × DeformerDXR × MeshInstanceDataDXR F M)) : DeformerDXR :=
  match r with
  | .ok p => p.2.1
  | .error _ => self

/-- The instance wrapper a call leaves (the wrapper itself when the call faults). -/
def instanceAfter {F M : Type} (inst_dxr : MeshInstanceDataDXR F M)
    (r : Except Fault (Bool × DeformerDXR × MeshInstanceDataDXR F M)) :
    MeshInstanceDataDXR F M :=
  match r with
  | .ok p => p.2.2
  | .error _ => inst_dxr

/-- Instance data with two other blendshape weights and no bones. -/
def baseBlendOther : MeshInstanceData Int Mat2 :=
  { transform := exampleIdentity, bones := [], blendshape_weights := [3, 4] }

/-- Instance data with a single blendshape weight and no bones. -/
def baseBlendOne : MeshInstanceData Int Mat2 :=
  { transform := exampleIdentity, bones := [], blendshape_weights := [9] }

/-- Instance data with two bones, no blendshape weights, placed at the identity. -/
def baseBonesAtIdentity : MeshInstanceData Int Mat2 :=
  { transform := exampleIdentity, bones := [⟨2, 0, 0, 1⟩, ⟨0, 1, 1, 0⟩], blendshape_weights := [] }

/-- A mesh asset as `exampleMesh` whose later delta frames were replaced. -/
def exampleMeshOtherFrames : MeshData Int Mat2 :=
  { exampleMesh with
    blendshapes :=
      [ ⟨[⟨[(1, 2, 3), (4, 5, 6)], 1⟩]⟩,
        ⟨[⟨[(-1, -2, -3), (-4, -5, -6)], 1⟩, ⟨[(0, 0, 0), (0, 0, 0)], 2⟩, ⟨[], 3⟩]⟩ ] }

/-- A mesh of 100 vertices with two single-frame blendshapes and no skin. -/
def exampleMesh100 : MeshDataDXR Int Mat2 :=
  { base :=
      { vertex_count := 100
        blendshapes := [⟨[⟨List.replicate 100 (1, 0, 0), 1⟩]⟩, ⟨[⟨List.replicate 100 (0, 1, 0), 1⟩]⟩]
        skin := { bindposes := [], bone_counts := [], weights := [] } }
    vertex_buffer := some 1000, vertex_stride := 12,
    bs_point_delta := none, bone_counts := none, bone_weights := none, mesh_info := none }

/-- A mesh of 2^28 + 1 vertices with one single-frame blendshape and no skin: its output
buffer needs 16 * (2^28 + 1) = 2^32 + 16 bytes. -/
def exampleMeshBig : MeshDataDXR Int Mat2 :=
  { base :=
      { vertex_count := 268435457
        blendshapes := [⟨[⟨List.replicate 268435457 (1, 0, 0), 1⟩]⟩]
        skin := { bindposes := [], bone_counts := [], weights := [] } }
    vertex_buffer := some 1000, vertex_stride := 12,
    bs_point_delta := none, bone_counts := none, bone_weights := none, mesh_info := none }

/-- A mesh of 2^27 vertices with one single-frame blendshape and no skin: its output buffer
needs 16 * 2^27 = 2^31 bytes, one more than the largest `int`. -/
def exampleMeshIntMax : MeshDataDXR Int Mat2 :=
  { base :=
      { vertex_count := 134217728
        blendshapes := [⟨[⟨List.replicate 134217728 (1, 0, 0), 1⟩]⟩]
        skin := { bindposes := [], bone_counts := [], weights := [] } }
    vertex_buffer := some 1000, vertex_stride := 12,
    bs_point_delta := none, bone_counts := none, bone_weights := none, mesh_info := none }

/-- A mesh of one vertex that has 2^30 + 1 single-frame blendshapes. -/
def exampleMeshManyShapes : MeshDataDXR Int Mat2 :=
  { base :=
      { vertex_count := 1
        blendshapes := List.replicate 1073741825 ⟨[⟨[(1, 0, 0)], 1⟩]⟩
        skin := { bindposes := [], bone_counts := [], weights := [] } }
    vertex_buffer := some 1000, vertex_stride := 12,
    bs_point_delta := none, bone_counts := none, bone_weights := none, mesh_info := none }

/-- Instance data with 2^30 + 1 blendshape weights, which need 4 * (2^30 + 1) = 2^32 + 4
bytes, and no bones. -/
def baseBlendMany : MeshInstanceData Int Mat2 :=
  { transform := exampleIdentity, bones := [], blendshape_weights := List.replicate 1073741825 9 }

/-- The first call for a new one-weight instance of the mesh of 2^28 + 1 vertices. -/
def firstCallBig : Except Fault (Bool × DeformerDXR × MeshInstanceDataDXR Int Mat2) :=
  queueDeformCommand envOk 0 exampleOps exampleDeformer
    (freshInstance baseBlendOne (some exampleMeshBig))

/-- The first call for a new one-weight instance of the mesh of 2^27 vertices. -/
def firstCallIntMax : Except Fault (Bool × DeformerDXR × MeshInstanceDataDXR Int Mat2) :=
  queueDeformCommand envOk 0 exampleOps exampleDeformer
    (freshInstance baseBlendOne (some exampleMeshIntMax))

/-- The first call for a new instance with 2^30 + 1 blendshape weights. -/
def firstCallManyShapes : Except Fault (Bool × DeformerDXR × MeshInstanceDataDXR Int Mat2) :=
  queueDeformCommand envOk 0 exampleOps exampleDeformer
    (freshInstance baseBlendMany (some exampleMeshManyShapes))

/-- The first call of a run: on the new deformer, for a new instance of the new mesh. -/
def firstCall (env : DeviceEnv) (base : MeshInstanceData Int Mat2) :
    Except Fault (Bool × DeformerDXR × MeshInstanceDataDXR Int Mat2) :=
  queueDeformCommand env 0 exampleOps exampleDeformer (freshInstance base (some exampleMeshDXR))

/-- The instance wrapper left by `firstCall`. -/
def instanceAfterFirst (env : DeviceEnv) (base : MeshInstanceData Int Mat2) :
    MeshInstanceDataDXR Int Mat2 :=
  instanceAfter (freshInstance base (some exampleMeshDXR)) (firstCall env base)

/-- The deformer left by `firstCall`. -/
def deformerAfterFirst (env : DeviceEnv) (base : MeshInstanceData Int Mat2) : DeformerDXR :=
  deformerAfter exampleDeformer (firstCall env base)

/-- The instance of `firstCall` at its second call, its data having become `base2`. -/
def secondCallInstance (env : DeviceEnv) (base base2 : MeshInstanceData Int Mat2) :
    MeshInstanceDataDXR Int Mat2 :=
  { instanceAfterFirst env base with base := base2 }

/-- A second call for the same instance, right after `firstCall`. -/
def secondCall (env : DeviceEnv) (base base2 : MeshInstanceData Int Mat2) :
    Except Fault (Bool × DeformerDXR × MeshInstanceDataDXR Int Mat2) :=
  queueDeformCommand env 0 exampleOps (deformerAfterFirst env base)
    (secondCallInstance env base base2)

/-- Another, new instance of the mesh of `firstCall`: it points to the mesh wrapper as the
first call left it. -/
def otherInstance (env : DeviceEnv) (base base2 : MeshInstanceData Int Mat2) :
    MeshInstanceDataDXR Int Mat2 :=
  freshInstance base2 (instanceAfterFirst env base).mesh

/-- A call for `otherInstance`, right after `firstCall`. -/
def otherInstanceCall (env : DeviceEnv) (base base2 : MeshInstanceData Int Mat2) :
    Except Fault (Bool × DeformerDXR × MeshInstanceDataDXR Int Mat2) :=
  queueDeformCommand env 0 exampleOps (deformerAfterFirst env base) (otherInstance env base base2)

/-- The first call for a new two-weight instance of the 100-vertex mesh. -/
def firstCall100 : Except Fault (Bool × DeformerDXR × MeshInstanceDataDXR Int Mat2) :=
  queueDeformCommand envOk 0 exampleOps exampleDeformer (freshInstance baseBlend (some exampleMesh100))

/-- The first call for a new two-weight instance of the mesh with the other later frames. -/
def firstCallOtherFrames : Except Fault (Bool × DeformerDXR × MeshInstanceDataDXR Int Mat2) :=
  queueDeformCommand envOk 0 exampleOps exampleDeformer
    (freshInstance baseBlend (some { exampleMeshDXR with base := exampleMeshOtherFrames }))

/-! ## Arithmetic of the narrowed sizes -/

theorem int32_of_lt (n : Nat) (h : n < 2147483648) : int32 n = n := by
  unfold int32
  omega

theorem width_size_arg (n : Nat) (h : n < 2147483648) : uint64 (size_arg n) = n := by
  unfold size_arg uint64 int32
  omega

theorem meshInfo_width : uint64 (int32 (align_to 256 sizeof_MeshInfo)) = 256 := by decide

/-! ## Basic facts about the helpers -/

theorem writeBuffer_ok {α σ : Type} {env : DeviceEnv} {self : DeformerDXR}
    {res : Option (Resource α)} {s : σ} {body : σ → Except Fault (List α × σ)}
    {w : DeformerDXR × Option (Resource α) × σ × Bool}
    (hw : writeBuffer env self res s body = .ok w) :
    ∃ r, res = some r ∧
      ((env.mapOk self.maps_issued = true ∧ ∃ xs s1, body s = .ok (xs, s1) ∧
          w = ({ self with maps_issued := self.maps_issued + 1 },
                some { r with data := xs ++ r.data.drop xs.length }, s1, true)) ∨
       (env.mapOk self.maps_issued = false ∧
          w = (SetErrorLog { self with maps_issued := self.maps_issued + 1 } "Map() failed\n",
                some r, s, false))) := by
  unfold writeBuffer at hw
  cases res with
  | none => simp at hw
  | some r =>
    refine ⟨r, rfl, ?_⟩
    simp only at hw
    by_cases hm : env.mapOk self.maps_issued = true
    · left
      simp only [hm, if_true] at hw
      cases hb : body s with
      | error e => simp [hb] at hw
      | ok p =>
        obtain ⟨xs, s1⟩ := p
        simp only [hb] at hw
        exact ⟨hm, xs, s1, rfl, (Except.ok.inj hw).symm⟩
    · right
      simp only [Bool.not_eq_true] at hm
      simp only [hm] at hw
      exact ⟨hm, (Except.ok.inj hw).symm⟩

theorem createBuffer_snd_some {α : Type} {env : DeviceEnv} {self : DeformerDXR} {size : Int}
    {hk : HeapKind} {uav : Bool} {r : Resource α}
    (h : (createBuffer env self size hk uav).2 = some r) :
    r = { id := self.resources_created, width := uint64 size, heap := hk, uav := uav,
          data := [] } := by
  unfold createBuffer at h
  by_cases hc : env.createOk self.resources_created = true
  · simp [hc] at h
    exact h.symm
  · simp [hc] at h

theorem plainBody_ok {α : Type} {xs : Except Fault (List α)} {u : Unit} {ys : List α} {u1 : Unit}
    (h : plainBody xs u = .ok (ys, u1)) : xs = .ok ys := by
  unfold plainBody at h
  cases xs with
  | error e => simp [Except.map] at h
  | ok l => simp [Except.map] at h; rw [h]

/-! ## What the loops write -/

theorem boneCountsLoop_length (bc : List Nat) :
    ∀ (k vi : Nat) (wc : Int) (xs : List BoneCount) (wc1 : Int),
      boneCountsLoop bc k vi wc = .ok (xs, wc1) → xs.length = k := by
  intro k
  induction k with
  | zero =>
    intro vi wc xs wc1 h
    simp [boneCountsLoop] at h
    rw [h.1]; rfl
  | succ k ih =>
    intro vi wc xs wc1 h
    unfold boneCountsLoop at h
    cases hn : bc[vi]? with
    | none => simp [hn] at h
    | some n =>
      simp only [hn] at h
      cases hrec : boneCountsLoop bc k (vi + 1) (int32 (wc + int32 n)) with
      | error e => simp [hrec] at h
      | ok p =>
        obtain ⟨rest, w⟩ := p
        simp only [hrec] at h
        injection h with h
        injection h with h1 h2
        subst h1
        simp [ih _ _ _ _ hrec]

theorem boneCountsLoop_ok (bc : List Nat) :
    ∀ (k vi : Nat) (wc : Int) (xs : List BoneCount) (wc1 : Int),
      boneCountsLoop bc k vi wc = .ok (xs, wc1) → 0 ≤ wc →
      wc + (((bc.drop vi).take k).sum : Nat) < 2147483648 →
      xs.length = k ∧ wc1 = wc + (((bc.drop vi).take k).sum : Nat) ∧
      ∀ j, j < k → ∃ n, bc[vi + j]? = some n ∧
        xs[j]? = some { weight_count := (n : Int),
                        weight_offset := wc + (((bc.drop vi).take j).sum : Nat) } := by
  intro k
  induction k with
  | zero =>
    intro vi wc xs wc1 h _ _
    simp [boneCountsLoop] at h
    obtain ⟨h1, h2⟩ := h
    subst h1 h2
    simp
  | succ k ih =>
    intro vi wc xs wc1 h h0 hb
    unfold boneCountsLoop at h
    cases hn : bc[vi]? with
    | none => simp [hn] at h
    | some n =>
      simp only [hn] at h
      have hdrop : bc.drop vi = n :: bc.drop (vi + 1) := by
        have hlt : vi < bc.length := by
          by_contra hge
          have : bc[vi]? = none := List.getElem?_eq_none (by omega)
          rw [this] at hn
          exact Option.noConfusion hn
        rw [List.drop_eq_getElem_cons hlt]
        congr 1
        have := List.getElem?_eq_getElem hlt
        rw [this] at hn
        exact Option.some.inj hn
      have hsum : ∀ m, (((bc.drop vi).take (m + 1)).sum : Nat) =
          n + ((bc.drop (vi + 1)).take m).sum := by
        intro m; rw [hdrop]; simp [List.take_succ_cons]
      rw [hsum k, Nat.cast_add] at hb
      have hS0 : (0 : Int) ≤ ((((bc.drop (vi + 1)).take k).sum : Nat) : Int) := Int.natCast_nonneg _
      have hn0 : (0 : Int) ≤ (n : Int) := Int.natCast_nonneg _
      have hn32 : int32 (n : Int) = (n : Int) := int32_of_lt n (by omega)
      have hacc : int32 (wc + int32 (n : Int)) = wc + (n : Int) := by
        rw [hn32]; unfold int32; omega
      rw [hacc, hn32] at h
      cases hrec : boneCountsLoop bc k (vi + 1) (wc + (n : Int)) with
      | error e => simp [hrec] at h
      | ok p =>
        obtain ⟨rest, wv⟩ := p
        simp only [hrec] at h
        injection h with h
        injection h with h1 h2
        subst h1 h2
        obtain ⟨hlen, hs, hel⟩ := ih (vi + 1) (wc + n) rest wv hrec (by omega) (by omega)
        refine ⟨by simp [hlen], ?_, ?_⟩
        · rw [hs, hsum k, Nat.cast_add]; omega
        · intro j hj
          cases j with
          | zero => exact ⟨n, by simpa using hn, by simp⟩
          | succ j =>
            obtain ⟨m, h1, h2⟩ := hel j (by omega)
            refine ⟨m, ?_, ?_⟩
            · rw [← h1, show vi + (j + 1) = vi + 1 + j by omega]
            · rw [hsum j, Nat.cast_add]
              simp only [List.getElem?_cons_succ, h2]
              rw [Int.add_assoc]

theorem copyDelta_ok {F : Type} (zero : F) (delta : List (float3 F)) :
    ∀ (n vi : Nat) (xs : List (float4 F)), copyDelta zero delta n vi = .ok xs →
      xs.length = n ∧ ∀ j, j < n → ∃ d, delta[vi + j]? = some d ∧
        xs[j]? = some (to_float4 d zero) := by
  intro n
  induction n with
  | zero =>
    intro vi xs h
    simp [copyDelta] at h
    subst h
    simp
  | succ n ih =>
    intro vi xs h
    unfold copyDelta at h
    cases hd : delta[vi]? with
    | none => simp [hd] at h
    | some d =>
      simp only [hd] at h
      cases hrec : copyDelta zero delta n (vi + 1) with
      | error e => simp [hrec] at h
      | ok rest =>
        simp only [hrec] at h
        injection h with h
        subst h
        obtain ⟨hlen, hel⟩ := ih (vi + 1) rest hrec
        refine ⟨by simp [hlen], ?_⟩
        intro j hj
        cases j with
        | zero => exact ⟨d, by simpa using hd, by simp⟩
        | succ j =>
          obtain ⟨d2, h1, h2⟩ := hel j (by omega)
          refine ⟨d2, ?_, by simpa using h2⟩
          rw [← h1]; congr 1; omega

theorem pointDelta_ok {F : Type} (zero : F) (blendshapes : List (BlendshapeData F)) (V : Nat) :
    ∀ (n bsi : Nat) (xs : List (float4 F)), pointDelta zero blendshapes V n bsi = .ok xs →
      xs.length = n * V ∧ ∀ j vi, j < n → vi < V → ∃ bs fr d,
        blendshapes[bsi + j]? = some bs ∧ bs.frames[0]? = some fr ∧ fr.delta[vi]? = some d ∧
        xs[j * V + vi]? = some (to_float4 d zero) := by
  intro n
  induction n with
  | zero =>
    intro bsi xs h
    simp [pointDelta] at h
    subst h
    simp
  | succ n ih =>
    intro bsi xs h
    unfold pointDelta at h
    cases hbs : blendshapes[bsi]? with
    | none => simp [hbs] at h
    | some bs =>
      simp only [hbs] at h
      cases hfr : bs.frames[0]? with
      | none => simp [hfr] at h
      | some fr =>
        simp only [hfr] at h
        cases hrow : copyDelta zero fr.delta V 0 with
        | error e => simp [hrow] at h
        | ok row =>
          simp only [hrow] at h
          cases hrec : pointDelta zero blendshapes V n (bsi + 1) with
          | error e => simp [hrec] at h
          | ok rest =>
            simp only [hrec] at h
            injection h with h
            subst h
            obtain ⟨hlen, hel⟩ := ih (bsi + 1) rest hrec
            obtain ⟨hrl, hre⟩ := copyDelta_ok zero fr.delta V 0 row hrow
            refine ⟨by simp [hlen, hrl]; ring, ?_⟩
            intro j vi hj hvi
            cases j with
            | zero =>
              obtain ⟨d, h1, h2⟩ := hre vi hvi
              refine ⟨bs, fr, d, by simpa using hbs, hfr, by simpa using h1, ?_⟩
              simp only [Nat.zero_mul, Nat.zero_add]
              rw [List.getElem?_append_left (by omega)]
              exact h2
            | succ j =>
              obtain ⟨bs2, fr2, d2, h1, h2, h3, h4⟩ := hel j vi (by omega) hvi
              refine ⟨bs2, fr2, d2, ?_, h2, h3, ?_⟩
              · rw [← h1]; congr 1; omega
              · rw [List.getElem?_append_right (by rw [hrl]; nlinarith)]
                rw [← h4]; congr 1; rw [hrl]
                have : (j + 1) * V = j * V + V := by ring
                omega


/-! ## The helpers and loops succeed on data in range -/

theorem createBuffer_of_ok {α : Type} {env : DeviceEnv} (self : DeformerDXR) (size : Int)
    (hk : HeapKind) (uav : Bool) (hc : ∀ n, env.createOk n = true) :
    (createBuffer env self size hk uav : DeformerDXR × Option (Resource α)) =
      ({ self with resources_created := self.resources_created + 1 },
        some { id := self.resources_created, width := uint64 size, heap := hk, uav := uav,
               data := [] }) := by
  simp [createBuffer, hc]

theorem writeBuffer_of_ok {α σ : Type} {env : DeviceEnv} (self : DeformerDXR) (r : Resource α)
    (s s1 : σ) (body : σ → Except Fault (List α × σ)) (xs : List α)
    (hm : ∀ n, env.mapOk n = true) (hb : body s = .ok (xs, s1)) :
    writeBuffer env self (some r) s body =
      .ok ({ self with maps_issued := self.maps_issued + 1 },
        some { r with data := xs ++ r.data.drop xs.length }, s1, true) := by
  simp [writeBuffer, hm, hb]

theorem plainBody_of_ok {α : Type} (xs : List α) (u : Unit) :
    plainBody (.ok xs : Except Fault (List α)) u = .ok (xs, ()) := rfl

theorem copyDelta_total {F : Type} (zero : F) (delta : List (float3 F)) :
    ∀ (n vi : Nat), vi + n ≤ delta.length → ∃ xs, copyDelta zero delta n vi = .ok xs := by
  intro n
  induction n with
  | zero => intro vi _; exact ⟨[], rfl⟩
  | succ n ih =>
    intro vi h
    obtain ⟨rest, hrest⟩ := ih (vi + 1) (by omega)
    have hlt : vi < delta.length := by omega
    refine ⟨to_float4 delta[vi] zero :: rest, ?_⟩
    unfold copyDelta
    simp [List.getElem?_eq_getElem hlt, hrest]

theorem pointDelta_total {F : Type} (zero : F) (blendshapes : List (BlendshapeData F)) (V : Nat) :
    ∀ (n bsi : Nat),
      (∀ j, j < n → ∃ bs fr, blendshapes[bsi + j]? = some bs ∧ bs.frames[0]? = some fr ∧
        V ≤ fr.delta.length) →
      ∃ xs, pointDelta zero blendshapes V n bsi = .ok xs := by
  intro n
  induction n with
  | zero => intro bsi _; exact ⟨[], rfl⟩
  | succ n ih =>
    intro bsi h
    obtain ⟨rest, hrest⟩ := ih (bsi + 1) (by
      intro j hj
      obtain ⟨bs, fr, h1, h2, h3⟩ := h (j + 1) (by omega)
      refine ⟨bs, fr, ?_, h2, h3⟩
      rw [← h1]; congr 1; omega)
    obtain ⟨bs, fr, h1, h2, h3⟩ := h 0 (by omega)
    obtain ⟨row, hrow⟩ := copyDelta_total zero fr.delta V 0 (by omega)
    refine ⟨row ++ rest, ?_⟩
    unfold pointDelta
    simp only [Nat.add_zero] at h1
    simp [h1, h2, hrow, hrest]

theorem boneCountsLoop_total (bc : List Nat) :
    ∀ (k vi : Nat) (wc : Int), vi + k ≤ bc.length →
      ∃ xs wc1, boneCountsLoop bc k vi wc = .ok (xs, wc1) := by
  intro k
  induction k with
  | zero => intro vi wc _; exact ⟨[], wc, rfl⟩
  | succ k ih =>
    intro vi wc h
    have hlt : vi < bc.length := by omega
    obtain ⟨rest, w, hrest⟩ := ih (vi + 1) (int32 (wc + int32 bc[vi])) (by omega)
    unfold boneCountsLoop
    simp only [List.getElem?_eq_getElem hlt, hrest]
    exact ⟨_, _, rfl⟩

theorem boneWeightsLoop_total {F : Type} (weights : List (BoneWeight F)) :
    ∀ (k wi : Nat), wi + k ≤ weights.length → ∃ xs, boneWeightsLoop weights k wi = .ok xs := by
  intro k
  induction k with
  | zero => intro wi _; exact ⟨[], rfl⟩
  | succ k ih =>
    intro wi h
    have hlt : wi < weights.length := by omega
    obtain ⟨rest, hrest⟩ := ih (wi + 1) (by omega)
    unfold boneWeightsLoop
    simp only [List.getElem?_eq_getElem hlt, hrest]
    exact ⟨_, rfl⟩

theorem boneMatricesLoop_total {M : Type} (ops : MatrixOps M) (bindposes bones : List M)
    (iroot : M) :
    ∀ (k bi : Nat), bi + k ≤ bindposes.length → bi + k ≤ bones.length →
      ∃ xs, boneMatricesLoop ops bindposes bones iroot k bi = .ok xs := by
  intro k
  induction k with
  | zero => intro bi _ _; exact ⟨[], rfl⟩
  | succ k ih =>
    intro bi h1 h2
    have hlt1 : bi < bindposes.length := by omega
    have hlt2 : bi < bones.length := by omega
    obtain ⟨rest, hrest⟩ := ih (bi + 1) (by omega) (by omega)
    unfold boneMatricesLoop
    simp only [List.getElem?_eq_getElem hlt1, List.getElem?_eq_getElem hlt2, hrest]
    exact ⟨_, rfl⟩

/-! ## What each section of the body changes -/

section steps
variable {F M : Type}

@[simp] theorem setupDescriptors_mesh_dxr (c : Ctx F M) :
    (setupDescriptors c).mesh_dxr = c.mesh_dxr := by
  unfold setupDescriptors; split <;> rfl

@[simp] theorem setupDescriptors_base (c : Ctx F M) :
    (setupDescriptors c).inst_dxr.base = c.inst_dxr.base := by
  unfold setupDescriptors; split <;> rfl

@[simp] theorem setupDescriptors_deformed_vertices (c : Ctx F M) :
    (setupDescriptors c).inst_dxr.deformed_vertices = c.inst_dxr.deformed_vertices := by
  unfold setupDescriptors; split <;> rfl

@[simp] theorem setupDescriptors_blendshape_weights (c : Ctx F M) :
    (setupDescriptors c).inst_dxr.blendshape_weights = c.inst_dxr.blendshape_weights := by
  unfold setupDescriptors; split <;> rfl

@[simp] theorem setupDescriptors_bones (c : Ctx F M) :
    (setupDescriptors c).inst_dxr.bones = c.inst_dxr.bones := by
  unfold setupDescriptors; split <;> rfl

@[simp] theorem setupDescriptors_resources_created (c : Ctx F M) :
    (setupDescriptors c).self.resources_created = c.self.resources_created := by
  unfold setupDescriptors; split <;> rfl

@[simp] theorem deformedVertices_mesh_dxr (env : DeviceEnv) (h : Handles) (c : Ctx F M) :
    (deformedVertices env h c).mesh_dxr = c.mesh_dxr := by
  unfold deformedVertices; split <;> rfl

@[simp] theorem deformedVertices_base (env : DeviceEnv) (h : Handles) (c : Ctx F M) :
    (deformedVertices env h c).inst_dxr.base = c.inst_dxr.base := by
  unfold deformedVertices; split <;> rfl

@[simp] theorem deformedVertices_blendshape_weights (env : DeviceEnv) (h : Handles) (c : Ctx F M) :
    (deformedVertices env h c).inst_dxr.blendshape_weights = c.inst_dxr.blendshape_weights := by
  unfold deformedVertices; split <;> rfl

@[simp] theorem deformedVertices_bones (env : DeviceEnv) (h : Handles) (c : Ctx F M) :
    (deformedVertices env h c).inst_dxr.bones = c.inst_dxr.bones := by
  unfold deformedVertices; split <;> rfl

theorem deformedVertices_of_none (env : DeviceEnv) (h : Handles) (c : Ctx F M)
    (h0 : c.inst_dxr.deformed_vertices = none)
    (hc : env.createOk c.self.resources_created = true) :
    (deformedVertices env h c).inst_dxr.deformed_vertices =
      some { id := c.self.resources_created,
             width := uint64 (size_arg (sizeof_float4 * c.mesh_dxr.base.vertex_count)),
             heap := HeapKind.default, uav := true, data := [] } := by
  unfold deformedVertices; simp only [h0]; simp [createBuffer, hc]

theorem blendshapeWeights_ok {env : DeviceEnv} {h : Handles} {c c1 : Ctx F M}
    (hok : blendshapeWeights env h c = .ok c1) :
    c1.mesh_dxr = c.mesh_dxr ∧ c1.inst_dxr.base = c.inst_dxr.base ∧
    c1.inst_dxr.deformed_vertices = c.inst_dxr.deformed_vertices ∧
    c1.inst_dxr.bones = c.inst_dxr.bones ∧
    ∃ r, c1.inst_dxr.blendshape_weights = some r ∧
      (c.inst_dxr.blendshape_weights = none →
        r.id = c.self.resources_created ∧
        r.width = uint64 (size_arg (sizeof_float * c.inst_dxr.base.blendshape_weights.length))) ∧
      (∀ r0, c.inst_dxr.blendshape_weights = some r0 → r.id = r0.id ∧ r.width = r0.width) ∧
      ((∀ n, env.mapOk n = true) →
        r.data.take c.inst_dxr.base.blendshape_weights.length =
          c.inst_dxr.base.blendshape_weights) := by
  unfold blendshapeWeights at hok
  simp only at hok
  split at hok
  · simp at hok
  · rename_i w hw
    obtain ⟨r, hr, hcase⟩ := writeBuffer_ok hw
    clear hw
    injection hok with hok
    subst hok
    cases hbw : c.inst_dxr.blendshape_weights with
    | some r0 =>
      simp only [hbw] at hr hcase
      cases hr
      rcases hcase with ⟨_, xs, s1, hb, rfl⟩ | ⟨hf, rfl⟩
      · have := plainBody_ok hb
        cases this
        simp [hbw]
      · simp [hbw]
        intro hall
        simp [hall] at hf
    | none =>
      simp only [hbw] at hr hcase
      have hr1 := createBuffer_snd_some hr
      subst hr1
      rcases hcase with ⟨_, xs, s1, hb, rfl⟩ | ⟨hf, rfl⟩
      · have := plainBody_ok hb
        cases this
        simp [hbw]
      · simp [hbw]
        intro hall
        simp [hall] at hf

theorem boneMatrices_ok {env : DeviceEnv} {ops : MatrixOps M} {h : Handles} {c c1 : Ctx F M}
    (hok : boneMatrices env ops h c = .ok c1) :
    c1.mesh_dxr = c.mesh_dxr ∧ c1.inst_dxr.base = c.inst_dxr.base ∧
    c1.inst_dxr.deformed_vertices = c.inst_dxr.deformed_vertices ∧
    c1.inst_dxr.blendshape_weights = c.inst_dxr.blendshape_weights ∧
    ∃ r, c1.inst_dxr.bones = some r ∧
      (c.inst_dxr.bones = none →
        r.id = c.self.resources_created ∧
        r.width = uint64 (size_arg (sizeof_float4x4 * c.inst_dxr.base.bones.length))) ∧
      (∀ r0, c.inst_dxr.bones = some r0 → r.id = r0.id ∧ r.width = r0.width) ∧
      ((∀ n, env.mapOk n = true) →
        ∃ xs, boneMatricesLoop ops c.mesh_dxr.base.skin.bindposes c.inst_dxr.base.bones
            (ops.invert c.inst_dxr.base.transform) c.inst_dxr.base.bones.length 0 = .ok xs ∧
          r.data.take xs.length = xs) := by
  unfold boneMatrices at hok
  simp only at hok
  split at hok
  · simp at hok
  · rename_i w hw
    obtain ⟨r, hr, hcase⟩ := writeBuffer_ok hw
    clear hw
    injection hok with hok
    subst hok
    cases hbw : c.inst_dxr.bones with
    | some r0 =>
      simp only [hbw] at hr hcase
      cases hr
      rcases hcase with ⟨_, xs, s1, hb, rfl⟩ | ⟨hf, rfl⟩
      · have := plainBody_ok hb
        simp [hbw, this]
      · simp [hbw]
        intro hall
        simp [hall] at hf
    | none =>
      simp only [hbw] at hr hcase
      have hr1 := createBuffer_snd_some hr
      subst hr1
      rcases hcase with ⟨_, xs, s1, hb, rfl⟩ | ⟨hf, rfl⟩
      · have := plainBody_ok hb
        simp [hbw, this]
      · simp [hbw]
        intro hall
        simp [hall] at hf

theorem blendshapeDelta_ok {env : DeviceEnv} {zero : F} {h : Handles} {c c1 : Ctx F M}
    (hok : blendshapeDelta env zero h c = .ok c1) :
    (c1.inst_dxr.base = c.inst_dxr.base ∧
      c1.inst_dxr.deformed_vertices = c.inst_dxr.deformed_vertices ∧
      c1.inst_dxr.blendshape_weights = c.inst_dxr.blendshape_weights ∧
      c1.inst_dxr.bones = c.inst_dxr.bones) ∧
    (c1.mesh_dxr.base = c.mesh_dxr.base ∧ c1.mesh_dxr.vertex_stride = c.mesh_dxr.vertex_stride ∧
      c1.mesh_dxr.bone_counts = c.mesh_dxr.bone_counts ∧
      c1.mesh_dxr.bone_weights = c.mesh_dxr.bone_weights ∧
      c1.mesh_dxr.mesh_info = c.mesh_dxr.mesh_info) ∧
    (∀ r0, c.mesh_dxr.bs_point_delta = some r0 → c1.mesh_dxr.bs_point_delta = some r0) ∧
    (c.mesh_dxr.bs_point_delta = none → ∃ r, c1.mesh_dxr.bs_point_delta = some r ∧
      r.width = uint64 (size_arg (sizeof_float4 * c.mesh_dxr.base.vertex_count *
        c.inst_dxr.base.blendshape_weights.length)) ∧
      ((∀ n, env.mapOk n = true) →
        pointDelta zero c.mesh_dxr.base.blendshapes c.mesh_dxr.base.vertex_count
          c.inst_dxr.base.blendshape_weights.length 0 = .ok r.data)) := by
  unfold blendshapeDelta at hok
  cases hbd : c.mesh_dxr.bs_point_delta with
  | some r0 =>
    simp only [hbd] at hok
    injection hok with hok
    subst hok
    simp [hbd]
  | none =>
    simp only [hbd] at hok
    split at hok
    · simp at hok
    · rename_i w hw
      obtain ⟨r, hr, hcase⟩ := writeBuffer_ok hw
      clear hw
      injection hok with hok
      subst hok
      have hr1 := createBuffer_snd_some hr
      subst hr1
      rcases hcase with ⟨_, xs, s1, hb, rfl⟩ | ⟨hf, rfl⟩
      · have := plainBody_ok hb
        simp [this]
      · simp
        intro hall
        simp [hall] at hf

theorem boneCountsAndWeights_ok {env : DeviceEnv} {h : Handles} {c c1 : Ctx F M}
    (hok : boneCountsAndWeights env h c = .ok c1) :
    (c1.inst_dxr.base = c.inst_dxr.base ∧
      c1.inst_dxr.deformed_vertices = c.inst_dxr.deformed_vertices ∧
      c1.inst_dxr.blendshape_weights = c.inst_dxr.blendshape_weights ∧
      c1.inst_dxr.bones = c.inst_dxr.bones) ∧
    (c1.mesh_dxr.base = c.mesh_dxr.base ∧ c1.mesh_dxr.vertex_stride = c.mesh_dxr.vertex_stride ∧
      c1.mesh_dxr.bs_point_delta = c.mesh_dxr.bs_point_delta ∧
      c1.mesh_dxr.mesh_info = c.mesh_dxr.mesh_info) ∧
    (∀ r0, c.mesh_dxr.bone_counts = some r0 → c1.mesh_dxr = c.mesh_dxr) ∧
    (c.mesh_dxr.bone_counts = none → (∀ n, env.mapOk n = true) →
      ∃ bc bw wc, c1.mesh_dxr.bone_counts = some bc ∧ c1.mesh_dxr.bone_weights = some bw ∧
        boneCountsLoop c.mesh_dxr.base.skin.bone_counts c.mesh_dxr.base.vertex_count 0 0 =
          .ok (bc.data, wc) ∧
        bc.width = uint64 (size_arg (sizeof_BoneCount * c.mesh_dxr.base.vertex_count)) ∧
        boneWeightsLoop c.mesh_dxr.base.skin.weights wc.toNat 0 = .ok bw.data ∧
        bw.width = uint64 (size_arg (sizeof_BoneWeight * uint64 wc))) := by
  unfold boneCountsAndWeights at hok
  cases hbd : c.mesh_dxr.bone_counts with
  | some r0 =>
    simp only [hbd] at hok
    injection hok with hok
    subst hok
    simp
  | none =>
    simp only [hbd] at hok
    split at hok
    · simp at hok
    · rename_i w hw
      split at hok
      · simp at hok
      · rename_i w2 hw2
        obtain ⟨r, hr, hcase⟩ := writeBuffer_ok hw
        obtain ⟨r2, hr2, hcase2⟩ := writeBuffer_ok hw2
        clear hw hw2
        injection hok with hok
        subst hok
        have hr1 := createBuffer_snd_some hr
        subst hr1
        have hr3 := createBuffer_snd_some hr2
        subst hr3
        refine ⟨⟨rfl, rfl, rfl, rfl⟩, ⟨rfl, rfl, rfl, rfl⟩, by simp, ?_⟩
        intro _ hall
        rcases hcase with ⟨_, xs, s1, hb, rfl⟩ | ⟨hf, rfl⟩
        · rcases hcase2 with ⟨_, ys, u, hb2, rfl⟩ | ⟨hf2, rfl⟩
          · have hb3 := plainBody_ok hb2
            refine ⟨_, _, s1, rfl, rfl, ?_, ?_, ?_, ?_⟩
            · simpa using hb
            · dsimp only
            · simpa using hb3
            · dsimp only
          · simp [hall] at hf2
        · simp [hall] at hf

theorem meshInfo_ok {env : DeviceEnv} {h : Handles} {c c1 : Ctx F M}
    (hok : meshInfo env h c = .ok c1) :
    (c1.inst_dxr.base = c.inst_dxr.base ∧
      c1.inst_dxr.deformed_vertices = c.inst_dxr.deformed_vertices ∧
      c1.inst_dxr.blendshape_weights = c.inst_dxr.blendshape_weights ∧
      c1.inst_dxr.bones = c.inst_dxr.bones) ∧
    (c1.mesh_dxr.base = c.mesh_dxr.base ∧ c1.mesh_dxr.vertex_stride = c.mesh_dxr.vertex_stride ∧
      c1.mesh_dxr.bs_point_delta = c.mesh_dxr.bs_point_delta ∧
      c1.mesh_dxr.bone_counts = c.mesh_dxr.bone_counts ∧
      c1.mesh_dxr.bone_weights = c.mesh_dxr.bone_weights) ∧
    (∀ r0, c.mesh_dxr.mesh_info = some r0 → c1.mesh_dxr.mesh_info = some r0) ∧
    (c.mesh_dxr.mesh_info = none → ∃ r, c1.mesh_dxr.mesh_info = some r ∧
      r.width = 256 ∧
      ((∀ n, env.mapOk n = true) →
        r.data = [makeMeshInfo c.mesh_dxr.base.vertex_count c.mesh_dxr.vertex_stride
          c.inst_dxr.base.blendshape_weights.length c.inst_dxr.base.bones.length])) := by
  unfold meshInfo at hok
  cases hbd : c.mesh_dxr.mesh_info with
  | some r0 =>
    simp only [hbd] at hok
    injection hok with hok
    subst hok
    simp [hbd]
  | none =>
    simp only [hbd] at hok
    split at hok
    · simp at hok
    · rename_i heap1 hcbv
      split at hok
      · simp at hok
      · rename_i w hw
        obtain ⟨r, hr, hcase⟩ := writeBuffer_ok hw
        clear hw hcbv
        injection hok with hok
        subst hok
        have hr1 := createBuffer_snd_some hr
        subst hr1
        refine ⟨⟨rfl, rfl, rfl, rfl⟩, ⟨rfl, rfl, rfl, rfl, rfl⟩, by simp, ?_⟩
        intro _
        rcases hcase with ⟨_, xs, s1, hb, rfl⟩ | ⟨hf, rfl⟩
        · have hb3 := plainBody_ok hb
          injection hb3 with hb3
          subst hb3
          exact ⟨_, rfl, meshInfo_width, fun _ => by simp⟩
        · refine ⟨_, rfl, meshInfo_width, fun hall => ?_⟩
          simp [hall] at hf


theorem blendshape_ok {env : DeviceEnv} {zero : F} {h : Handles} {c c1 : Ctx F M}
    (hok : blendshape env zero h c = .ok c1) :
    (c1.inst_dxr.base = c.inst_dxr.base ∧
      c1.inst_dxr.deformed_vertices = c.inst_dxr.deformed_vertices ∧
      c1.inst_dxr.bones = c.inst_dxr.bones) ∧
    (c1.mesh_dxr.base = c.mesh_dxr.base ∧ c1.mesh_dxr.vertex_stride = c.mesh_dxr.vertex_stride ∧
      c1.mesh_dxr.bone_counts = c.mesh_dxr.bone_counts ∧
      c1.mesh_dxr.bone_weights = c.mesh_dxr.bone_weights ∧
      c1.mesh_dxr.mesh_info = c.mesh_dxr.mesh_info) ∧
    (∀ r0, c.mesh_dxr.bs_point_delta = some r0 → c1.mesh_dxr.bs_point_delta = some r0) ∧
    (c.inst_dxr.base.blendshape_weights.length = 0 →
      c1.inst_dxr.blendshape_weights = c.inst_dxr.blendshape_weights ∧
      c1.mesh_dxr.bs_point_delta = c.mesh_dxr.bs_point_delta) ∧
    (0 < c.inst_dxr.base.blendshape_weights.length → c.mesh_dxr.bs_point_delta = none →
      ∃ r, c1.mesh_dxr.bs_point_delta = some r ∧
        r.width = uint64 (size_arg (sizeof_float4 * c.mesh_dxr.base.vertex_count *
          c.inst_dxr.base.blendshape_weights.length)) ∧
        ((∀ n, env.mapOk n = true) →
          pointDelta zero c.mesh_dxr.base.blendshapes c.mesh_dxr.base.vertex_count
            c.inst_dxr.base.blendshape_weights.length 0 = .ok r.data)) ∧
    (0 < c.inst_dxr.base.blendshape_weights.length →
      ∃ r, c1.inst_dxr.blendshape_weights = some r ∧
        (c.inst_dxr.blendshape_weights = none →
          r.width = uint64 (size_arg (sizeof_float * c.inst_dxr.base.blendshape_weights.length))) ∧
        (∀ r0, c.inst_dxr.blendshape_weights = some r0 → r.id = r0.id ∧ r.width = r0.width) ∧
        ((∀ n, env.mapOk n = true) →
          r.data.take c.inst_dxr.base.blendshape_weights.length =
            c.inst_dxr.base.blendshape_weights)) := by
  unfold blendshape at hok
  by_cases hB : c.inst_dxr.base.blendshape_weights.length > 0
  · simp only [hB, if_true] at hok
    cases hd : blendshapeDelta env zero h c with
    | error e => simp [hd] at hok
    | ok c0 =>
      simp only [hd] at hok
      obtain ⟨⟨i1, i2, i3, i4⟩, ⟨m1, m2, m3, m4, m5⟩, hsome, hnone⟩ := blendshapeDelta_ok hd
      obtain ⟨e1, e2, e3, e4, r, hr, hrn, hrs, hrm⟩ := blendshapeWeights_ok hok
      refine ⟨⟨by rw [e2, i1], by rw [e3, i2], by rw [e4, i4]⟩,
        ⟨by rw [e1, m1], by rw [e1, m2], by rw [e1, m3], by rw [e1, m4], by rw [e1, m5]⟩,
        ?_, ?_, ?_, ?_⟩
      · intro r0 h0; rw [e1]; exact hsome r0 h0
      · intro h0; omega
      · intro _ h0; rw [e1]; exact hnone h0
      · intro _
        rw [i1, i3] at *
        exact ⟨r, hr, fun h0 => (hrn h0).2, hrs, hrm⟩
  · simp only [hB, if_false] at hok
    injection hok with hok
    subst hok
    refine ⟨⟨rfl, rfl, rfl⟩, ⟨rfl, rfl, rfl, rfl, rfl⟩, fun _ h0 => h0, fun _ => ⟨rfl, rfl⟩, ?_, ?_⟩
    · intro h0; exact absurd h0 hB
    · intro h0; exact absurd h0 hB


theorem skinning_ok {env : DeviceEnv} {ops : MatrixOps M} {h : Handles} {c c1 : Ctx F M}
    (hok : skinning env ops h c = .ok c1) :
    (c1.inst_dxr.base = c.inst_dxr.base ∧
      c1.inst_dxr.deformed_vertices = c.inst_dxr.deformed_vertices ∧
      c1.inst_dxr.blendshape_weights = c.inst_dxr.blendshape_weights) ∧
    (c1.mesh_dxr.base = c.mesh_dxr.base ∧ c1.mesh_dxr.vertex_stride = c.mesh_dxr.vertex_stride ∧
      c1.mesh_dxr.bs_point_delta = c.mesh_dxr.bs_point_delta ∧
      c1.mesh_dxr.mesh_info = c.mesh_dxr.mesh_info) ∧
    (c.inst_dxr.base.bones.length = 0 → c1.inst_dxr.bones = c.inst_dxr.bones) ∧
    (0 < c.inst_dxr.base.bones.length → c.mesh_dxr.bone_counts = none →
      (∀ n, env.mapOk n = true) →
      ∃ bc bw wc, c1.mesh_dxr.bone_counts = some bc ∧ c1.mesh_dxr.bone_weights = some bw ∧
        boneCountsLoop c.mesh_dxr.base.skin.bone_counts c.mesh_dxr.base.vertex_count 0 0 =
          .ok (bc.data, wc) ∧
        bc.width = uint64 (size_arg (sizeof_BoneCount * c.mesh_dxr.base.vertex_count)) ∧
        boneWeightsLoop c.mesh_dxr.base.skin.weights wc.toNat 0 = .ok bw.data ∧
        bw.width = uint64 (size_arg (sizeof_BoneWeight * uint64 wc))) ∧
    (0 < c.inst_dxr.base.bones.length →
      ∃ r, c1.inst_dxr.bones = some r ∧
        (c.inst_dxr.bones = none →
          r.width = uint64 (size_arg (sizeof_float4x4 * c.inst_dxr.base.bones.length))) ∧
        (∀ r0, c.inst_dxr.bones = some r0 → r.id = r0.id ∧ r.width = r0.width) ∧
        ((∀ n, env.mapOk n = true) →
          ∃ xs, boneMatricesLoop ops c.mesh_dxr.base.skin.bindposes c.inst_dxr.base.bones
              (ops.invert c.inst_dxr.base.transform) c.inst_dxr.base.bones.length 0 = .ok xs ∧
            r.data.take xs.length = xs)) := by
  unfold skinning at hok
  by_cases hB : c.inst_dxr.base.bones.length > 0
  · simp only [hB, if_true] at hok
    cases hd : boneCountsAndWeights env h c with
    | error e => simp [hd] at hok
    | ok c0 =>
      simp only [hd] at hok
      obtain ⟨⟨i1, i2, i3, i4⟩, ⟨m1, m2, m3, m4⟩, -, hnone⟩ := boneCountsAndWeights_ok hd
      obtain ⟨e1, e2, e3, e4, r, hr, hrn, hrs, hrm⟩ := boneMatrices_ok hok
      refine ⟨⟨by rw [e2, i1], by rw [e3, i2], by rw [e4, i3]⟩,
        ⟨by rw [e1, m1], by rw [e1, m2], by rw [e1, m3], by rw [e1, m4]⟩, ?_, ?_, ?_⟩
      · intro h0; omega
      · intro _ h0 hall; rw [e1]; exact hnone h0 hall
      · intro _
        rw [i1, i4, m1] at *
        exact ⟨r, hr, fun h0 => (hrn h0).2, hrs, hrm⟩
  · simp only [hB, if_false] at hok
    injection hok with hok
    subst hok
    refine ⟨⟨rfl, rfl, rfl⟩, ⟨rfl, rfl, rfl, rfl⟩, fun _ => rfl, ?_, ?_⟩
    · intro h0; exact absurd h0 hB
    · intro h0; exact absurd h0 hB

theorem queueDeformCommand_true {env : DeviceEnv} {zero : F} {ops : MatrixOps M}
    {self self1 : DeformerDXR} {inst_dxr inst1 : MeshInstanceDataDXR F M}
    (hrun : queueDeformCommand env zero ops self inst_dxr = .ok (true, self1, inst1)) :
    ∃ mesh_dxr c3 c4 c5, inst_dxr.mesh = some mesh_dxr ∧
      blendshape env zero allocateHandles (deformedVertices env allocateHandles
        (setupDescriptors { self := self, inst_dxr := inst_dxr, mesh_dxr := mesh_dxr })) = .ok c3 ∧
      skinning env ops allocateHandles c3 = .ok c4 ∧
      meshInfo env allocateHandles c4 = .ok c5 ∧
      self1 = (recordDispatch allocateHandles c5).self ∧
      inst1 = { c5.inst_dxr with mesh := some c5.mesh_dxr } := by
  unfold queueDeformCommand at hrun
  split at hrun
  · simp at hrun
  · cases hm : inst_dxr.mesh with
    | none => simp [hm] at hrun
    | some mesh_dxr =>
      simp only [hm] at hrun
      split at hrun
      · simp at hrun
      · unfold deformBody at hrun
        simp only at hrun
        cases h3 : blendshape env zero allocateHandles (deformedVertices env allocateHandles
            (setupDescriptors { self := self, inst_dxr := inst_dxr, mesh_dxr := mesh_dxr })) with
        | error e => simp [h3] at hrun
        | ok c3 =>
          simp only [h3] at hrun
          cases h4 : skinning env ops allocateHandles c3 with
          | error e => simp [h4] at hrun
          | ok c4 =>
            simp only [h4] at hrun
            cases h5 : meshInfo env allocateHandles c4 with
            | error e => simp [h5] at hrun
            | ok c5 =>
              simp only [h5] at hrun
              injection hrun with hrun
              injection hrun with _ hrun
              injection hrun with hs hi
              exact ⟨mesh_dxr, c3, c4, c5, rfl, h3, h4, h5, hs.symm, hi.symm⟩


/-! ## Each section succeeds on data in range -/

theorem blendshapeDelta_total {env : DeviceEnv} (zero : F) (h : Handles) (c : Ctx F M)
    (hc : ∀ n, env.createOk n = true) (hm : ∀ n, env.mapOk n = true)
    (hwf : ∀ bsi, bsi < c.inst_dxr.base.blendshape_weights.length → ∃ bs fr,
      c.mesh_dxr.base.blendshapes[bsi]? = some bs ∧ bs.frames[0]? = some fr ∧
      c.mesh_dxr.base.vertex_count ≤ fr.delta.length) :
    ∃ c1, blendshapeDelta env zero h c = .ok c1 := by
  unfold blendshapeDelta
  cases hbd : c.mesh_dxr.bs_point_delta with
  | some r0 => exact ⟨c, rfl⟩
  | none =>
    obtain ⟨xs, hxs⟩ := pointDelta_total zero c.mesh_dxr.base.blendshapes
      c.mesh_dxr.base.vertex_count c.inst_dxr.base.blendshape_weights.length 0
      (by intro j hj; simpa using hwf j hj)
    simp only [createBuffer_of_ok _ _ _ _ hc, hxs]
    rw [writeBuffer_of_ok _ _ _ _ _ xs hm (plainBody_of_ok xs ())]
    exact ⟨_, rfl⟩

theorem blendshapeWeights_total {env : DeviceEnv} (h : Handles) (c : Ctx F M)
    (hc : ∀ n, env.createOk n = true) (hm : ∀ n, env.mapOk n = true) :
    ∃ c1, blendshapeWeights env h c = .ok c1 := by
  unfold blendshapeWeights
  cases hbd : c.inst_dxr.blendshape_weights with
  | some r0 =>
    simp only [hbd]
    rw [writeBuffer_of_ok _ _ _ _ _ _ hm (plainBody_of_ok _ ())]
    exact ⟨_, rfl⟩
  | none =>
    simp only [createBuffer_of_ok _ _ _ _ hc]
    rw [writeBuffer_of_ok _ _ _ _ _ _ hm (plainBody_of_ok _ ())]
    exact ⟨_, rfl⟩

theorem boneCountsAndWeights_total {env : DeviceEnv} (h : Handles) (c : Ctx F M)
    (hc : ∀ n, env.createOk n = true) (hm : ∀ n, env.mapOk n = true)
    (h1 : c.mesh_dxr.base.vertex_count ≤ c.mesh_dxr.base.skin.bone_counts.length)
    (h2 : (c.mesh_dxr.base.skin.bone_counts.take c.mesh_dxr.base.vertex_count).sum <
      2147483648)
    (h3 : (c.mesh_dxr.base.skin.bone_counts.take c.mesh_dxr.base.vertex_count).sum ≤
      c.mesh_dxr.base.skin.weights.length) :
    ∃ c1, boneCountsAndWeights env h c = .ok c1 := by
  unfold boneCountsAndWeights
  cases hbd : c.mesh_dxr.bone_counts with
  | some r0 => exact ⟨c, rfl⟩
  | none =>
    obtain ⟨xs, wc, hxs⟩ := boneCountsLoop_total c.mesh_dxr.base.skin.bone_counts
      c.mesh_dxr.base.vertex_count 0 0 (by omega)
    obtain ⟨-, hsum, -⟩ := boneCountsLoop_ok _ _ _ _ _ _ hxs (le_refl _)
      (by simp only [List.drop_zero, zero_add]; exact_mod_cast h2)
    simp only [List.drop_zero, zero_add] at hsum
    obtain ⟨ys, hys⟩ := boneWeightsLoop_total c.mesh_dxr.base.skin.weights wc.toNat 0
      (by rw [hsum, Int.toNat_ofNat]; omega)
    simp only [createBuffer_of_ok _ _ _ _ hc]
    rw [writeBuffer_of_ok _ _ _ _ _ xs hm hxs]
    simp only [createBuffer_of_ok _ _ _ _ hc, hys]
    rw [writeBuffer_of_ok _ _ _ _ _ ys hm (plainBody_of_ok ys ())]
    exact ⟨_, rfl⟩

theorem boneMatrices_total {env : DeviceEnv} (ops : MatrixOps M) (h : Handles) (c : Ctx F M)
    (hc : ∀ n, env.createOk n = true) (hm : ∀ n, env.mapOk n = true)
    (h1 : c.inst_dxr.base.bones.length ≤ c.mesh_dxr.base.skin.bindposes.length) :
    ∃ c1, boneMatrices env ops h c = .ok c1 := by
  unfold boneMatrices
  obtain ⟨xs, hxs⟩ := boneMatricesLoop_total ops c.mesh_dxr.base.skin.bindposes
    c.inst_dxr.base.bones (ops.invert c.inst_dxr.base.transform) c.inst_dxr.base.bones.length 0
    (by omega) (by omega)
  cases hbd : c.inst_dxr.bones with
  | some r0 =>
    simp only [hxs, hbd]
    rw [writeBuffer_of_ok _ _ _ _ _ _ hm (plainBody_of_ok _ ())]
    exact ⟨_, rfl⟩
  | none =>
    simp only [createBuffer_of_ok _ _ _ _ hc, hxs]
    rw [writeBuffer_of_ok _ _ _ _ _ _ hm (plainBody_of_ok _ ())]
    exact ⟨_, rfl⟩

theorem meshInfo_total {env : DeviceEnv} (h : Handles) (c : Ctx F M)
    (hc : ∀ n, env.createOk n = true) (hm : ∀ n, env.mapOk n = true) :
    ∃ c1, meshInfo env h c = .ok c1 := by
  unfold meshInfo
  cases hbd : c.mesh_dxr.mesh_info with
  | some r0 => exact ⟨c, rfl⟩
  | none =>
    simp only [createBuffer_of_ok _ _ _ _ hc, Option.map, createCBV]
    rw [writeBuffer_of_ok _ _ _ _ _ _ hm (plainBody_of_ok _ ())]
    exact ⟨_, rfl⟩

theorem blendshape_total {env : DeviceEnv} (zero : F) (h : Handles) (c : Ctx F M)
    (hc : ∀ n, env.createOk n = true) (hm : ∀ n, env.mapOk n = true)
    (hwf : AssetInRange c.inst_dxr.base c.mesh_dxr.base) :
    ∃ c1, blendshape env zero h c = .ok c1 := by
  unfold blendshape
  by_cases hB : c.inst_dxr.base.blendshape_weights.length > 0
  · simp only [hB, if_true]
    obtain ⟨c0, h0⟩ := blendshapeDelta_total zero h c hc hm hwf.1
    obtain ⟨c1, h1⟩ := blendshapeWeights_total h c0 hc hm
    exact ⟨c1, by simp only [h0, h1]⟩
  · simp only [hB, if_false]
    exact ⟨c, rfl⟩

theorem skinning_total {env : DeviceEnv} (ops : MatrixOps M) (h : Handles) (c : Ctx F M)
    (hc : ∀ n, env.createOk n = true) (hm : ∀ n, env.mapOk n = true)
    (hwf : AssetInRange c.inst_dxr.base c.mesh_dxr.base) :
    ∃ c1, skinning env ops h c = .ok c1 := by
  unfold skinning
  by_cases hB : c.inst_dxr.base.bones.length > 0
  · simp only [hB, if_true]
    obtain ⟨w1, w2, w3, w4⟩ := hwf.2 hB
    obtain ⟨c0, h0⟩ := boneCountsAndWeights_total h c hc hm w1 w2 w3
    obtain ⟨⟨i1, -, -, -⟩, ⟨m1, -⟩, -⟩ := boneCountsAndWeights_ok h0
    obtain ⟨c1, h1⟩ := boneMatrices_total ops h c0 hc hm (by rw [i1, m1]; exact w4)
    exact ⟨c1, by simp only [h0, h1]⟩
  · simp only [hB, if_false]
    exact ⟨c, rfl⟩

/-- On a built deformer, with a device that creates and maps every buffer, a call for an
instance that has something to deform and whose data is in range returns true. -/
theorem queueDeformCommand_returns {env : DeviceEnv} (zero : F) (ops : MatrixOps M)
    (self : DeformerDXR) (inst_dxr : MeshInstanceDataDXR F M) (mesh_dxr : MeshDataDXR F M)
    (hc : ∀ n, env.createOk n = true) (hm : ∀ n, env.mapOk n = true)
    (hroot : self.m_rootsig_deform = true) (hpipe : self.m_pipeline_state = true)
    (hmesh : inst_dxr.mesh = some mesh_dxr)
    (hwork : 0 < inst_dxr.base.blendshape_weights.length ∨ 0 < inst_dxr.base.bones.length)
    (hwf : AssetInRange inst_dxr.base mesh_dxr.base) :
    ∃ self1 inst1, queueDeformCommand env zero ops self inst_dxr = .ok (true, self1, inst1) := by
  have hcond : ¬ ((inst_dxr.base.blendshape_weights.length == 0 &&
      inst_dxr.base.bones.length == 0) = true) := by
    simp only [Bool.and_eq_true, beq_iff_eq]
    omega
  obtain ⟨c3, h3⟩ := blendshape_total zero allocateHandles (deformedVertices env allocateHandles
    (setupDescriptors { self := self, inst_dxr := inst_dxr, mesh_dxr := mesh_dxr })) hc hm
    (by simpa using hwf)
  obtain ⟨⟨b1, -, -⟩, ⟨bm, -⟩, -⟩ := blendshape_ok h3
  simp only [deformedVertices_base, setupDescriptors_base, deformedVertices_mesh_dxr,
    setupDescriptors_mesh_dxr] at b1 bm
  obtain ⟨c4, h4⟩ := skinning_total ops allocateHandles c3 hc hm (by rw [b1, bm]; exact hwf)
  obtain ⟨c5, h5⟩ := meshInfo_total allocateHandles c4 hc hm
  have hrun : queueDeformCommand env zero ops self inst_dxr =
      .ok (true, (recordDispatch allocateHandles c5).self,
        { c5.inst_dxr with mesh := some c5.mesh_dxr }) := by
    unfold queueDeformCommand
    simp only [hroot, hpipe, hmesh, hcond, deformBody, h3, h4, h5]
    rfl
  exact ⟨_, _, hrun⟩

/-- What a call that returns true leaves behind, section by section. -/
theorem queueDeformCommand_true_facts {env : DeviceEnv} {zero : F} {ops : MatrixOps M}
    {self self1 : DeformerDXR} {inst_dxr inst1 : MeshInstanceDataDXR F M}
    {mesh_dxr : MeshDataDXR F M} (hmesh : inst_dxr.mesh = some mesh_dxr)
    (hrun : queueDeformCommand env zero ops self inst_dxr = .ok (true, self1, inst1)) :
    ∃ c2 c3 c4 c5 : Ctx F M,
      c2 = deformedVertices env allocateHandles
        (setupDescriptors { self := self, inst_dxr := inst_dxr, mesh_dxr := mesh_dxr }) ∧
      blendshape env zero allocateHandles c2 = .ok c3 ∧
      skinning env ops allocateHandles c3 = .ok c4 ∧
      meshInfo env allocateHandles c4 = .ok c5 ∧
      inst1 = { c5.inst_dxr with mesh := some c5.mesh_dxr } := by
  obtain ⟨m, c3, c4, c5, hm, h3, h4, h5, -, hi⟩ := queueDeformCommand_true hrun
  rw [hmesh] at hm
  cases hm
  exact ⟨_, c3, c4, c5, rfl, h3, h4, h5, hi⟩

/-- The point-delta loop reads nothing of a blendshape but the deltas of its first frame. -/
theorem pointDelta_first_frames (zero : F) (bs1 bs2 : List (BlendshapeData F)) (V : Nat) :
    ∀ (n bsi : Nat),
      (∀ j, j < n → (bs1[bsi + j]?).bind (fun b => (b.frames[0]?).map (·.delta)) =
        (bs2[bsi + j]?).bind (fun b => (b.frames[0]?).map (·.delta))) →
      pointDelta zero bs1 V n bsi = pointDelta zero bs2 V n bsi := by
  intro n
  induction n with
  | zero => intro bsi _; rfl
  | succ n ih =>
    intro bsi h
    have hrec := ih (bsi + 1) (by
      intro j hj
      have := h (j + 1) (by omega)
      rw [show bsi + (j + 1) = bsi + 1 + j by omega] at this
      exact this)
    have h0 := h 0 (by omega)
    simp only [Nat.add_zero] at h0
    unfold pointDelta
    rw [hrec]
    cases e1 : bs1[bsi]? with
    | none =>
      cases e2 : bs2[bsi]? with
      | none => rfl
      | some b2 =>
        rw [e1, e2] at h0
        cases f2 : b2.frames[0]? with
        | none => simp only [f2]
        | some fr2 => simp [f2] at h0
    | some b1 =>
      cases e2 : bs2[bsi]? with
      | none =>
        rw [e1, e2] at h0
        cases f1 : b1.frames[0]? with
        | none => simp only [f1]
        | some fr1 => simp [f1] at h0
      | some b2 =>
        rw [e1, e2] at h0
        cases f1 : b1.frames[0]? with
        | none =>
          cases f2 : b2.frames[0]? with
          | none => simp only [f1, f2]
          | some fr2 => simp [f1, f2] at h0
        | some fr1 =>
          cases f2 : b2.frames[0]? with
          | none => simp [f1, f2] at h0
          | some fr2 =>
            simp [f1, f2] at h0
            simp only [f1, f2, h0]


/-- The point-delta buffer after a call that found the mesh without one. -/
theorem point_delta_after {env : DeviceEnv} {zero : F} {ops : MatrixOps M}
    {self self1 : DeformerDXR} {inst_dxr inst1 : MeshInstanceDataDXR F M}
    {mesh_dxr : MeshDataDXR F M}
    (hmap : ∀ n, env.mapOk n = true)
    (hmesh : inst_dxr.mesh = some mesh_dxr) (hnone : mesh_dxr.bs_point_delta = none)
    (hB : 0 < inst_dxr.base.blendshape_weights.length)
    (hrun : queueDeformCommand env zero ops self inst_dxr = .ok (true, self1, inst1)) :
    ∃ mesh1 r, inst1.mesh = some mesh1 ∧ mesh1.bs_point_delta = some r ∧
      r.width = uint64 (size_arg (sizeof_float4 * mesh_dxr.base.vertex_count *
        inst_dxr.base.blendshape_weights.length)) ∧
      pointDelta zero mesh_dxr.base.blendshapes mesh_dxr.base.vertex_count
        inst_dxr.base.blendshape_weights.length 0 = .ok r.data := by
  obtain ⟨c2, c3, c4, c5, h2, h3, h4, h5, hi⟩ := queueDeformCommand_true_facts hmesh hrun
  obtain ⟨-, -, -, -, hd, -⟩ := blendshape_ok h3
  obtain ⟨-, ⟨-, -, s3, -⟩, -⟩ := skinning_ok h4
  obtain ⟨-, ⟨-, -, m3, -, -⟩, -⟩ := meshInfo_ok h5
  have e2 : c2.mesh_dxr = mesh_dxr := by rw [h2]; simp
  have e2i : c2.inst_dxr.base = inst_dxr.base := by rw [h2]; simp
  rw [e2, e2i] at hd
  obtain ⟨r, hr, hw, hp⟩ := hd hB hnone
  subst hi
  exact ⟨c5.mesh_dxr, r, rfl, by rw [m3, s3, hr], hw, hp hmap⟩

/-- The blendshape-weight buffer after a call with at least one blendshape weight. -/
theorem blendshape_weights_after {env : DeviceEnv} {zero : F} {ops : MatrixOps M}
    {self self1 : DeformerDXR} {inst_dxr inst1 : MeshInstanceDataDXR F M}
    (hmap : ∀ n, env.mapOk n = true)
    (hB : 0 < inst_dxr.base.blendshape_weights.length)
    (hrun : queueDeformCommand env zero ops self inst_dxr = .ok (true, self1, inst1)) :
    ∃ r, inst1.blendshape_weights = some r ∧
      (∀ k, k < inst_dxr.base.blendshape_weights.length →
        r.data[k]? = inst_dxr.base.blendshape_weights[k]?) ∧
      (inst_dxr.blendshape_weights = none →
        r.width = uint64 (size_arg (sizeof_float * inst_dxr.base.blendshape_weights.length))) ∧
      (∀ r0, inst_dxr.blendshape_weights = some r0 → r.id = r0.id ∧ r.width = r0.width) := by
  obtain ⟨mesh_dxr, c3, c4, c5, hmesh, -⟩ := queueDeformCommand_true hrun
  obtain ⟨c2, c3, c4, c5, h2, h3, h4, h5, hi⟩ := queueDeformCommand_true_facts hmesh hrun
  obtain ⟨-, -, -, -, -, hw⟩ := blendshape_ok h3
  obtain ⟨⟨-, -, s3⟩, -⟩ := skinning_ok h4
  obtain ⟨⟨-, -, m3, -⟩, -⟩ := meshInfo_ok h5
  have e2i : c2.inst_dxr.base = inst_dxr.base := by rw [h2]; simp
  have e2w : c2.inst_dxr.blendshape_weights = inst_dxr.blendshape_weights := by rw [h2]; simp
  rw [e2i, e2w] at hw
  obtain ⟨r, hr, hn, hs, hm⟩ := hw hB
  have htake := hm hmap
  subst hi
  refine ⟨r, by rw [m3, s3, hr], ?_, hn, hs⟩
  intro k hk
  rw [← htake, List.getElem?_take_of_lt hk]

/-- The mesh-info buffer after a call that returns true: an existing buffer is left as it
is, a missing one is built from the counts of this call. -/
theorem mesh_info_after {env : DeviceEnv} {zero : F} {ops : MatrixOps M}
    {self self1 : DeformerDXR} {inst_dxr inst1 : MeshInstanceDataDXR F M}
    {mesh_dxr : MeshDataDXR F M}
    (hmap : ∀ n, env.mapOk n = true)
    (hmesh : inst_dxr.mesh = some mesh_dxr)
    (hrun : queueDeformCommand env zero ops self inst_dxr = .ok (true, self1, inst1)) :
    ∃ mesh1, inst1.mesh = some mesh1 ∧
      (∀ r0, mesh_dxr.mesh_info = some r0 → mesh1.mesh_info = some r0) ∧
      (mesh_dxr.mesh_info = none → ∃ r, mesh1.mesh_info = some r ∧
        r.width = 256 ∧
        r.data = [makeMeshInfo mesh_dxr.base.vertex_count mesh_dxr.vertex_stride
          inst_dxr.base.blendshape_weights.length inst_dxr.base.bones.length]) := by
  obtain ⟨c2, c3, c4, c5, h2, h3, h4, h5, hi⟩ := queueDeformCommand_true_facts hmesh hrun
  obtain ⟨⟨b1, -, -⟩, ⟨bb, bs, -, -, b5⟩, -⟩ := blendshape_ok h3
  obtain ⟨⟨s1, -, -⟩, ⟨sb, ss, -, s4⟩, -⟩ := skinning_ok h4
  obtain ⟨-, -, hsome, hnone⟩ := meshInfo_ok h5
  have e2 : c2.mesh_dxr = mesh_dxr := by rw [h2]; simp
  have e2i : c2.inst_dxr.base = inst_dxr.base := by rw [h2]; simp
  have e4 : c4.mesh_dxr.mesh_info = mesh_dxr.mesh_info := by rw [s4, b5, e2]
  have e4i : c4.inst_dxr.base = inst_dxr.base := by rw [s1, b1, e2i]
  have e4b : c4.mesh_dxr.base = mesh_dxr.base := by rw [sb, bb, e2]
  have e4s : c4.mesh_dxr.vertex_stride = mesh_dxr.vertex_stride := by rw [ss, bs, e2]
  subst hi
  refine ⟨c5.mesh_dxr, rfl, ?_, ?_⟩
  · intro r0 h0
    exact hsome r0 (by rw [e4, h0])
  · intro h0
    obtain ⟨r, hr, hw, hd⟩ := hnone (by rw [e4, h0])
    have hdata := hd hmap
    rw [e4i, e4b, e4s] at hdata
    exact ⟨r, hr, hw, hdata⟩

/-- The output buffer after a call that returns true and found the instance without one,
every creation succeeding. -/
theorem output_buffer_after {env : DeviceEnv} {zero : F} {ops : MatrixOps M}
    {self self1 : DeformerDXR} {inst_dxr inst1 : MeshInstanceDataDXR F M}
    {mesh_dxr : MeshDataDXR F M}
    (hc : ∀ n, env.createOk n = true)
    (hmesh : inst_dxr.mesh = some mesh_dxr)
    (hnone : inst_dxr.deformed_vertices = none)
    (hrun : queueDeformCommand env zero ops self inst_dxr = .ok (true, self1, inst1)) :
    inst1.deformed_vertices =
      some { id := self.resources_created,
             width := uint64 (size_arg (sizeof_float4 * mesh_dxr.base.vertex_count)),
             heap := HeapKind.default, uav := true, data := [] } := by
  obtain ⟨c2, c3, c4, c5, h2, h3, h4, h5, hi⟩ := queueDeformCommand_true_facts hmesh hrun
  obtain ⟨⟨-, b2, -⟩, -⟩ := blendshape_ok h3
  obtain ⟨⟨-, s2, -⟩, -⟩ := skinning_ok h4
  obtain ⟨⟨-, m2, -, -⟩, -⟩ := meshInfo_ok h5
  subst hi
  rw [m2, s2, b2, h2, deformedVertices_of_none _ _ _ (by simpa using hnone) (hc _)]
  simp

end steps

section large

/-! ## Runs on inputs whose byte sizes exceed an `int` -/

/-- The run for the mesh of 2^28 + 1 vertices returns true with an output buffer and a
point-delta buffer of 16 bytes each. -/
theorem firstCallBig_run :
    firstCallBig = .ok (true, deformerAfter exampleDeformer firstCallBig,
      instanceAfter (freshInstance baseBlendOne (some exampleMeshBig)) firstCallBig) ∧
    ((instanceAfter (freshInstance baseBlendOne (some exampleMeshBig))
      firstCallBig).deformed_vertices.map (·.width)) = some 16 ∧
    (((instanceAfter (freshInstance baseBlendOne (some exampleMeshBig))
      firstCallBig).mesh.bind (·.bs_point_delta)).map (·.width)) = some 16 := by
  have hB : 0 < baseBlendOne.blendshape_weights.length := by decide
  have hc : ∀ n, envOk.createOk n = true := fun _ => rfl
  have hm : ∀ n, envOk.mapOk n = true := fun _ => rfl
  have hwf : AssetInRange baseBlendOne exampleMeshBig.base := by
    refine ⟨fun bsi hb => ?_, fun h => absurd h (by decide)⟩
    have hlen : baseBlendOne.blendshape_weights.length = 1 := rfl
    obtain rfl : bsi = 0 := by omega
    refine ⟨⟨[⟨List.replicate 268435457 (1, 0, 0), 1⟩]⟩, ⟨List.replicate 268435457 (1, 0, 0), 1⟩,
      rfl, rfl, ?_⟩
    show exampleMeshBig.base.vertex_count ≤ (List.replicate 268435457 ((1 : Int), (0 : Int), (0 : Int))).length
    rw [List.length_replicate]
    exact Nat.le_refl _
  obtain ⟨s, i, h⟩ := queueDeformCommand_returns (0 : Int) exampleOps exampleDeformer
    (freshInstance baseBlendOne (some exampleMeshBig)) exampleMeshBig
    hc hm rfl rfl rfl (Or.inl hB) hwf
  have hout := output_buffer_after hc rfl rfl h
  obtain ⟨mesh1, r, hm1, hr, hw, -⟩ := point_delta_after hm rfl rfl hB h
  have h1 : firstCallBig = .ok (true, s, i) := h
  rw [h1]
  refine ⟨rfl, ?_, ?_⟩
  · show i.deformed_vertices.map _ = _
    rw [hout]
    decide
  · show (i.mesh.bind _).map _ = _
    rw [hm1]
    show (mesh1.bs_point_delta).map _ = _
    rw [hr]
    show some r.width = _
    rw [hw]
    decide

/-- The run for the mesh of 2^27 vertices returns true with an output buffer and a
point-delta buffer whose `Width` is the sign-extended `int` -2^31. -/
theorem firstCallIntMax_run :
    firstCallIntMax = .ok (true, deformerAfter exampleDeformer firstCallIntMax,
      instanceAfter (freshInstance baseBlendOne (some exampleMeshIntMax)) firstCallIntMax) ∧
    ((instanceAfter (freshInstance baseBlendOne (some exampleMeshIntMax))
      firstCallIntMax).deformed_vertices.map (·.width)) = some 18446744071562067968 ∧
    (((instanceAfter (freshInstance baseBlendOne (some exampleMeshIntMax))
      firstCallIntMax).mesh.bind (·.bs_point_delta)).map (·.width)) = some 18446744071562067968 := by
  have hB : 0 < baseBlendOne.blendshape_weights.length := by decide
  have hc : ∀ n, envOk.createOk n = true := fun _ => rfl
  have hm : ∀ n, envOk.mapOk n = true := fun _ => rfl
  have hwf : AssetInRange baseBlendOne exampleMeshIntMax.base := by
    refine ⟨fun bsi hb => ?_, fun h => absurd h (by decide)⟩
    have hlen : baseBlendOne.blendshape_weights.length = 1 := rfl
    obtain rfl : bsi = 0 := by omega
    refine ⟨⟨[⟨List.replicate 134217728 (1, 0, 0), 1⟩]⟩, ⟨List.replicate 134217728 (1, 0, 0), 1⟩,
      rfl, rfl, ?_⟩
    show exampleMeshIntMax.base.vertex_count ≤ (List.replicate 134217728 ((1 : Int), (0 : Int), (0 : Int))).length
    rw [List.length_replicate]
    exact Nat.le_refl _
  obtain ⟨s, i, h⟩ := queueDeformCommand_returns (0 : Int) exampleOps exampleDeformer
    (freshInstance baseBlendOne (some exampleMeshIntMax)) exampleMeshIntMax
    hc hm rfl rfl rfl (Or.inl hB) hwf
  have hout := output_buffer_after hc rfl rfl h
  obtain ⟨mesh1, r, hm1, hr, hw, -⟩ := point_delta_after hm rfl rfl hB h
  have h1 : firstCallIntMax = .ok (true, s, i) := h
  rw [h1]
  refine ⟨rfl, ?_, ?_⟩
  · show i.deformed_vertices.map _ = _
    rw [hout]
    decide
  · show (i.mesh.bind _).map _ = _
    rw [hm1]
    show (mesh1.bs_point_delta).map _ = _
    rw [hr]
    show some r.width = _
    rw [hw]
    decide

/-- The run for the instance with 2^30 + 1 blendshape weights returns true with a weight
buffer of 4 bytes. -/
theorem firstCallManyShapes_run :
    firstCallManyShapes = .ok (true, deformerAfter exampleDeformer firstCallManyShapes,
      instanceAfter (freshInstance baseBlendMany (some exampleMeshManyShapes))
        firstCallManyShapes) ∧
    baseBlendMany.blendshape_weights.length = 1073741825 ∧
    ((instanceAfter (freshInstance baseBlendMany (some exampleMeshManyShapes))
      firstCallManyShapes).blendshape_weights.map (·.width)) = some 4 := by
  have hlen : (freshInstance baseBlendMany (some exampleMeshManyShapes)).base.blendshape_weights.length
      = 1073741825 := List.length_replicate _ _
  have hB : 0 < (freshInstance baseBlendMany
      (some exampleMeshManyShapes)).base.blendshape_weights.length := by rw [hlen]; omega
  have hc : ∀ n, envOk.createOk n = true := fun _ => rfl
  have hm : ∀ n, envOk.mapOk n = true := fun _ => rfl
  have hwf : AssetInRange baseBlendMany exampleMeshManyShapes.base := by
    refine ⟨fun bsi hb => ?_, fun h => ?_⟩
    · have hb2 : bsi < 1073741825 := by rw [← hlen]; exact hb
      refine ⟨⟨[⟨[(1, 0, 0)], 1⟩]⟩, ⟨[(1, 0, 0)], 1⟩, ?_, rfl, Nat.le_refl _⟩
      show (List.replicate 1073741825 (⟨[⟨[(1, 0, 0)], 1⟩]⟩ : BlendshapeData Int))[bsi]? = _
      rw [List.getElem?_replicate, if_pos hb2]
    · exact absurd h (by decide)
  obtain ⟨s, i, h⟩ := queueDeformCommand_returns (0 : Int) exampleOps exampleDeformer
    (freshInstance baseBlendMany (some exampleMeshManyShapes)) exampleMeshManyShapes
    hc hm rfl rfl rfl (Or.inl hB) hwf
  obtain ⟨r, hr, -, hw, -⟩ := blendshape_weights_after hm hB h
  have hw2 := hw rfl
  rw [hlen] at hw2
  have h1 : firstCallManyShapes = .ok (true, s, i) := h
  rw [h1]
  refine ⟨rfl, hlen, ?_⟩
  show i.blendshape_weights.map _ = _
  rw [hr]
  show some r.width = _
  rw [hw2]
  decide

end large

/-! ## The claims -/

section claims
variable {F M : Type}

/-! ### C1 -/

/-- C1: for an instance whose bone list and blendshape-weight list are both empty,
`queueDeformCommand` returns false and is a no-op: the deformer (command list, device
counters, log) and the instance wrapper (descriptor heap, instance buffers, mesh wrapper with
its GPU cache) come back exactly as they were passed. -/
theorem queueDeformCommand_nothing_to_deform (env : DeviceEnv) (zero : F) (ops : MatrixOps M)
    (self : DeformerDXR) (inst_dxr : MeshInstanceDataDXR F M)
    (hbones : inst_dxr.base.bones = []) (hweights : inst_dxr.base.blendshape_weights = []) :
    queueDeformCommand env zero ops self inst_dxr = .ok (false, self, inst_dxr) := by
  unfold queueDeformCommand
  split
  · rfl
  · cases hm : inst_dxr.mesh with
    | none => rfl
    | some mesh_dxr => simp [hbones, hweights]

/-- C1 at a concrete input: an instance without bones and weights, after an earlier call made
for it while it still had weights (so it owns a heap and buffers). -/
theorem queueDeformCommand_nothing_to_deform_witness :
    (secondCallInstance envOk baseBlend baseStatic).base.bones = [] ∧
    (secondCallInstance envOk baseBlend baseStatic).base.blendshape_weights = [] ∧
    secondCall envOk baseBlend baseStatic =
      .ok (false, deformerAfterFirst envOk baseBlend,
        secondCallInstance envOk baseBlend baseStatic) :=
  ⟨rfl, rfl, queueDeformCommand_nothing_to_deform envOk (0 : Int) exampleOps _ _ rfl rfl⟩

/-! ### C2 -/

/-- C3 (the code at the failing input): a second instance of a mesh whose GPU cache was built
by the call for the first instance.  The call returns true and binds all eight tables of the
new instance's heap, but slot 2 (blendshape-delta SRV) and slot 7 (mesh-info CBV) of that heap
were never written, although the instance has blendshape weights: these two views are only
created inside the lazy build of the mesh-level buffers, into the heap of the first instance. -/
theorem second_instance_slots_unwritten :
    otherInstanceCall envOk baseBlend baseBlendOther =
      .ok (true, deformerAfter (deformerAfterFirst envOk baseBlend)
            (otherInstanceCall envOk baseBlend baseBlendOther),
          instanceAfter (otherInstance envOk baseBlend baseBlendOther)
            (otherInstanceCall envOk baseBlend baseBlendOther)) ∧
    0 < (otherInstance envOk baseBlend baseBlendOther).base.blendshape_weights.length ∧
    ((instanceAfter (otherInstance envOk baseBlend baseBlendOther)
        (otherInstanceCall envOk baseBlend baseBlendOther)).srvuav_heap.map (·.slots)) =
      some [some (View.uav (some 4) 2 16), some (View.srv (some 1000) 2 12), none,
        some (View.srv (some 5) 2 4), none, none, none, none] ∧
    ((instanceAfterFirst envOk baseBlend).srvuav_heap.map (·.slots)) =
      some [some (View.uav (some 0) 2 16), some (View.srv (some 1000) 2 12),
        some (View.srv (some 1) 4 16), some (View.srv (some 2) 2 4), none, none, none,
        some (View.cbv 3 256)] ∧
    ((deformerAfter (deformerAfterFirst envOk baseBlend)
        (otherInstanceCall envOk baseBlend baseBlendOther)).m_cmd_list.drop 11) =
      [Command.SetComputeRootSignature, Command.SetDescriptorHeaps (some 1),
        Command.SetComputeRootDescriptorTable 0 0, Command.SetComputeRootDescriptorTable 1 1,
        Command.SetComputeRootDescriptorTable 2 2, Command.SetComputeRootDescriptorTable 3 3,
        Command.SetComputeRootDescriptorTable 4 4, Command.SetComputeRootDescriptorTable 5 5,
        Command.SetComputeRootDescriptorTable 6 6, Command.SetComputeRootDescriptorTable 7 7,
        Command.Dispatch 2 1 1] :=
  ⟨rfl, by decide, by decide, by decide, by decide⟩

/-! ### C4 -/

/-- C7 (the code at the failing input): the creation of the point-delta buffer (the second
creation of the call) fails.  `createBuffer` logs the failure and returns a null handle, and
the `writeBuffer` that follows calls `Map` through that null handle: the call faults instead
of returning true.  Only a failed creation of the output buffer, which is never mapped, is
survived: that call logs the failure, leaves the buffer null, records the dispatch and
returns true. -/
theorem failed_creation_faults :
    firstCall (envCreateFailsAt 1) baseBlend = .error Fault.nullDeref ∧
    firstCall (envCreateFailsAt 2) baseBlend = .error Fault.nullDeref ∧
    firstCall (envCreateFailsAt 3) baseBlend = .error Fault.nullDeref ∧
    firstCall (envCreateFailsAt 1) baseBonesAtIdentity = .error Fault.nullDeref ∧
    firstCall (envCreateFailsAt 2) baseBonesAtIdentity = .error Fault.nullDeref ∧
    firstCall (envCreateFailsAt 3) baseBonesAtIdentity = .error Fault.nullDeref ∧
    (firstCall (envCreateFailsAt 0) baseBlend =
        .ok (true, deformerAfterFirst (envCreateFailsAt 0) baseBlend,
          instanceAfterFirst (envCreateFailsAt 0) baseBlend) ∧
      (instanceAfterFirst (envCreateFailsAt 0) baseBlend).deformed_vertices = none ∧
      (deformerAfterFirst (envCreateFailsAt 0) baseBlend).error_log =
        ["CreateCommittedResource() failed\n"] ∧
      (deformerAfterFirst (envCreateFailsAt 0) baseBlend).m_cmd_list.getLast? =
        some (Command.Dispatch 2 1 1)) :=
  ⟨rfl, rfl, rfl, rfl, rfl, rfl, rfl, by decide, by decide, by decide⟩

/-! ### C8 -/

/-- C9 fails as stated: the sizes are handed to `createBuffer(int size)`.  (1) For a fresh
one-weight instance of a fresh mesh of 2^28 + 1 vertices the call returns true with an output
buffer of 16 bytes, not 16 * (2^28 + 1) = 2^32 + 16.  (2) For a fresh instance with 2^30 + 1
weights the call returns true with a weight buffer of 4 bytes, not 4 * (2^30 + 1) =
2^32 + 4.  (3) For a fresh mesh of 2^27 vertices the size 16 * 2^27 = 2^31 becomes the `int`
-2^31, and a creation that succeeds has the `Width` 2^64 - 2^31. -/
theorem first_call_sizes_wrap :
    (FreshInstance (freshInstance baseBlendOne (some exampleMeshBig)) ∧
      FreshMesh exampleMeshBig ∧ baseBlendOne.bones = [] ∧
      0 < baseBlendOne.blendshape_weights.length ∧
      firstCallBig = .ok (true, deformerAfter exampleDeformer firstCallBig,
        instanceAfter (freshInstance baseBlendOne (some exampleMeshBig)) firstCallBig) ∧
      exampleMeshBig.base.vertex_count = 268435457 ∧
      ((instanceAfter (freshInstance baseBlendOne (some exampleMeshBig))
        firstCallBig).deformed_vertices.map (·.width)) = some 16) ∧
    (FreshInstance (freshInstance baseBlendMany (some exampleMeshManyShapes)) ∧
      FreshMesh exampleMeshManyShapes ∧ baseBlendMany.bones = [] ∧
      firstCallManyShapes = .ok (true, deformerAfter exampleDeformer firstCallManyShapes,
        instanceAfter (freshInstance baseBlendMany (some exampleMeshManyShapes))
          firstCallManyShapes) ∧
      baseBlendMany.blendshape_weights.length = 1073741825 ∧
      ((instanceAfter (freshInstance baseBlendMany (some exampleMeshManyShapes))
        firstCallManyShapes).blendshape_weights.map (·.width)) = some 4) ∧
    (FreshInstance (freshInstance baseBlendOne (some exampleMeshIntMax)) ∧
      FreshMesh exampleMeshIntMax ∧
      firstCallIntMax = .ok (true, deformerAfter exampleDeformer firstCallIntMax,
        instanceAfter (freshInstance baseBlendOne (some exampleMeshIntMax)) firstCallIntMax) ∧
      exampleMeshIntMax.base.vertex_count = 134217728 ∧
      ((instanceAfter (freshInstance baseBlendOne (some exampleMeshIntMax))
        firstCallIntMax).deformed_vertices.map (·.width)) = some 18446744071562067968) :=
  ⟨⟨⟨rfl, rfl, rfl, rfl⟩, ⟨rfl, rfl, rfl, rfl⟩, rfl, by decide, firstCallBig_run.1, rfl,
      firstCallBig_run.2.1⟩,
    ⟨⟨rfl, rfl, rfl, rfl⟩, ⟨rfl, rfl, rfl, rfl⟩, rfl, firstCallManyShapes_run.1,
      firstCallManyShapes_run.2.1, firstCallManyShapes_run.2.2⟩,
    ⟨⟨rfl, rfl, rfl, rfl⟩, ⟨rfl, rfl, rfl, rfl⟩, firstCallIntMax_run.1, rfl,
      firstCallIntMax_run.2.1⟩⟩

/-- C9 (amended): for the first call on a fresh instance of a fresh mesh with `V` vertices,
`B > 0` blendshape weights and no bones, with `16 * V` and `4 * B` below 2^31 and every
creation and mapping succeeding, a call that returns true has created the output buffer with
`16 * V` bytes and the blendshape-weight buffer with `4 * B` bytes and has written
`deform_flags = 1` into the mesh info; and the call does return true when the deformer is
built, each of the `B` blendshapes has a first frame with a delta per vertex and the size
`16 * V * B` of the delta buffer is below 2^31 as well. -/
theorem first_call_blendshapes_only (env : DeviceEnv) (zero : F) (ops : MatrixOps M)
    (self : DeformerDXR) (inst_dxr : MeshInstanceDataDXR F M) (mesh_dxr : MeshDataDXR F M)
    (hc : ∀ n, env.createOk n = true) (hmap : ∀ n, env.mapOk n = true)
    (hmesh : inst_dxr.mesh = some mesh_dxr)
    (hfi : FreshInstance inst_dxr) (hfm : FreshMesh mesh_dxr)
    (hB : 0 < inst_dxr.base.blendshape_weights.length)
    (hbones : inst_dxr.base.bones = [])
    (hV : sizeof_float4 * mesh_dxr.base.vertex_count < 2147483648)
    (hW : sizeof_float * inst_dxr.base.blendshape_weights.length < 2147483648) :
    (∀ self1 inst1, queueDeformCommand env zero ops self inst_dxr = .ok (true, self1, inst1) →
      ∃ mesh1 out w mi info, inst1.mesh = some mesh1 ∧
        inst1.deformed_vertices = some out ∧
        out.width = 16 * mesh_dxr.base.vertex_count ∧
        inst1.blendshape_weights = some w ∧
        w.width = 4 * inst_dxr.base.blendshape_weights.length ∧
        mesh1.mesh_info = some mi ∧ mi.data = [info] ∧ info.deform_flags = 1) ∧
    (self.m_rootsig_deform = true → self.m_pipeline_state = true →
      (∀ bsi, bsi < inst_dxr.base.blendshape_weights.length → ∃ bs fr,
        mesh_dxr.base.blendshapes[bsi]? = some bs ∧ bs.frames[0]? = some fr ∧
        mesh_dxr.base.vertex_count ≤ fr.delta.length) →
      sizeof_float4 * mesh_dxr.base.vertex_count * inst_dxr.base.blendshape_weights.length <
        2147483648 →
      ∃ self1 inst1, queueDeformCommand env zero ops self inst_dxr = .ok (true, self1, inst1)) := by
  obtain ⟨-, hdv, hbw, hbn⟩ := hfi
  obtain ⟨-, -, -, hmi⟩ := hfm
  constructor
  · intro self1 inst1 hrun
    obtain ⟨mesh1, hm1, -, hinfo⟩ := mesh_info_after hmap hmesh hrun
    obtain ⟨mi, hmi1, -, hdata⟩ := hinfo hmi
    obtain ⟨w, hw, -, hwn, -⟩ := blendshape_weights_after hmap hB hrun
    refine ⟨mesh1, _, w, mi, _, hm1, output_buffer_after hc hmesh hdv hrun, ?_, hw, ?_,
      hmi1, hdata, ?_⟩
    · dsimp only
      exact width_size_arg _ hV
    · rw [hwn hbw]; exact width_size_arg _ hW
    · simp [makeMeshInfo, hB, hbones, DF_APPLY_BLENDSHAPE]
  · intro hroot hpipe hwf _
    refine queueDeformCommand_returns zero ops self inst_dxr mesh_dxr hc hmap hroot hpipe hmesh
      (Or.inl hB) ⟨hwf, ?_⟩
    intro h; simp [hbones] at h

set_option maxRecDepth 100000 in
/-- C9 (amended) at the scenario of the claim: 100 vertices, 2 blendshape weights, no bones
give an output buffer of 1600 bytes, a weight buffer of 8 bytes and `deform_flags = 1`. -/
theorem first_call_blendshapes_only_witness :
    (∀ n, envOk.createOk n = true) ∧ (∀ n, envOk.mapOk n = true) ∧
    (freshInstance baseBlend (some exampleMesh100)).mesh = some exampleMesh100 ∧
    FreshInstance (freshInstance baseBlend (some exampleMesh100)) ∧ FreshMesh exampleMesh100 ∧
    exampleMesh100.base.vertex_count = 100 ∧
    (freshInstance baseBlend (some exampleMesh100)).base.blendshape_weights.length = 2 ∧
    (freshInstance baseBlend (some exampleMesh100)).base.bones = [] ∧
    sizeof_float4 * exampleMesh100.base.vertex_count < 2147483648 ∧
    sizeof_float * (freshInstance baseBlend
      (some exampleMesh100)).base.blendshape_weights.length < 2147483648 ∧
    firstCall100 = .ok (true, deformerAfter exampleDeformer firstCall100,
      instanceAfter (freshInstance baseBlend (some exampleMesh100)) firstCall100) ∧
    ∃ mesh1 out w mi info,
      (instanceAfter (freshInstance baseBlend (some exampleMesh100)) firstCall100).mesh =
        some mesh1 ∧
      (instanceAfter (freshInstance baseBlend (some exampleMesh100))
        firstCall100).deformed_vertices = some out ∧
      out.width = 1600 ∧
      (instanceAfter (freshInstance baseBlend (some exampleMesh100))
        firstCall100).blendshape_weights = some w ∧
      w.width = 8 ∧
      mesh1.mesh_info = some mi ∧ mi.data = [info] ∧ info.deform_flags = 1 :=
  ⟨fun _ => rfl, fun _ => rfl, rfl, ⟨rfl, rfl, rfl, rfl⟩, ⟨rfl, rfl, rfl, rfl⟩, rfl, rfl, rfl,
    by decide, by decide, rfl,
    (first_call_blendshapes_only envOk (0 : Int) exampleOps exampleDeformer
      (freshInstance baseBlend (some exampleMesh100)) exampleMesh100
      (fun _ => rfl) (fun _ => rfl) rfl ⟨rfl, rfl, rfl, rfl⟩ ⟨rfl, rfl, rfl, rfl⟩
      (by decide) rfl (by decide) (by decide)).1 (deformerAfter exampleDeformer firstCall100)
      (instanceAfter (freshInstance baseBlend (some exampleMesh100)) firstCall100) rfl⟩

/-! ### C10 -/

/-- C10 fails as stated: the size is handed to `createBuffer(int size)`.  (1) For a one-weight
instance of a mesh of 2^28 + 1 vertices the call builds the delta buffer and returns true,
but 16 * (2^28 + 1) * 1 = 2^32 + 16 becomes 16: the buffer is created with 16 bytes, room for
one vec4 element and not for `V * B` = 2^28 + 1.  (2) For a mesh of 2^27 vertices the size
16 * 2^27 * 1 = 2^31 becomes the `int` -2^31, and a creation that succeeds has the `Width`
2^64 - 2^31. -/
theorem point_delta_size_wraps :
    (firstCallBig = .ok (true, deformerAfter exampleDeformer firstCallBig,
        instanceAfter (freshInstance baseBlendOne (some exampleMeshBig)) firstCallBig) ∧
      exampleMeshBig.bs_point_delta = none ∧
      exampleMeshBig.base.vertex_count = 268435457 ∧
      baseBlendOne.blendshape_weights.length = 1 ∧
      (((instanceAfter (freshInstance baseBlendOne (some exampleMeshBig))
        firstCallBig).mesh.bind (·.bs_point_delta)).map (·.width)) = some 16) ∧
    (firstCallIntMax = .ok (true, deformerAfter exampleDeformer firstCallIntMax,
        instanceAfter (freshInstance baseBlendOne (some exampleMeshIntMax)) firstCallIntMax) ∧
      exampleMeshIntMax.bs_point_delta = none ∧
      exampleMeshIntMax.base.vertex_count = 134217728 ∧
      (((instanceAfter (freshInstance baseBlendOne (some exampleMeshIntMax))
        firstCallIntMax).mesh.bind (·.bs_point_delta)).map (·.width)) =
          some 18446744071562067968) :=
  ⟨⟨firstCallBig_run.1, rfl, rfl, rfl, firstCallBig_run.2.2⟩,
    ⟨firstCallIntMax_run.1, rfl, rfl, firstCallIntMax_run.2.2⟩⟩

/-- C10 (amended): when a call builds the mesh-level blendshape delta buffer (the mesh has
none, the instance has `B > 0` blendshape weights, every mapping succeeds) for a mesh with `V`
vertices, `16 * V * B` being below 2^31, and returns true, the buffer has `16 * V * B` bytes
and holds exactly `V * B` elements, element `bsi * V + vi` being `(frames[0].delta[vi], 0)` of
blendshape `bsi` for every `bsi < B` and `vi < V`; and any such call on a mesh with the same
vertex count, number of weights and first-frame deltas, whatever its other frames, writes the
same elements.  Moreover the call does return true when the deformer is built, every creation
succeeds, the data is in range (each blendshape has a first frame with a delta per vertex)
and every size fits an `int`. -/
theorem point_delta_built (env : DeviceEnv) (zero : F) (ops : MatrixOps M)
    (self : DeformerDXR) (inst_dxr : MeshInstanceDataDXR F M) (mesh_dxr : MeshDataDXR F M)
    (hmap : ∀ n, env.mapOk n = true)
    (hmesh : inst_dxr.mesh = some mesh_dxr) (hnone : mesh_dxr.bs_point_delta = none)
    (hB : 0 < inst_dxr.base.blendshape_weights.length)
    (hsize : sizeof_float4 * mesh_dxr.base.vertex_count *
      inst_dxr.base.blendshape_weights.length < 2147483648) :
    (∀ self1 inst1, queueDeformCommand env zero ops self inst_dxr = .ok (true, self1, inst1) →
      ∃ mesh1 r, inst1.mesh = some mesh1 ∧ mesh1.bs_point_delta = some r ∧
        r.width = sizeof_float4 * mesh_dxr.base.vertex_count *
          inst_dxr.base.blendshape_weights.length ∧
        r.data.length = mesh_dxr.base.vertex_count * inst_dxr.base.blendshape_weights.length ∧
        (∀ bsi vi, bsi < inst_dxr.base.blendshape_weights.length →
          vi < mesh_dxr.base.vertex_count → ∃ bs fr d,
            mesh_dxr.base.blendshapes[bsi]? = some bs ∧ bs.frames[0]? = some fr ∧
            fr.delta[vi]? = some d ∧
            r.data[bsi * mesh_dxr.base.vertex_count + vi]? = some (to_float4 d zero)) ∧
        (∀ (env2 : DeviceEnv) (self2 self3 : DeformerDXR)
            (inst_dxr2 inst3 : MeshInstanceDataDXR F M) (mesh_dxr2 : MeshDataDXR F M),
          (∀ n, env2.mapOk n = true) → inst_dxr2.mesh = some mesh_dxr2 →
          mesh_dxr2.bs_point_delta = none →
          mesh_dxr2.base.vertex_count = mesh_dxr.base.vertex_count →
          inst_dxr2.base.blendshape_weights.length = inst_dxr.base.blendshape_weights.length →
          (∀ bsi, bsi < inst_dxr.base.blendshape_weights.length →
            (mesh_dxr2.base.blendshapes[bsi]?).bind (fun b => (b.frames[0]?).map (·.delta)) =
            (mesh_dxr.base.blendshapes[bsi]?).bind (fun b => (b.frames[0]?).map (·.delta))) →
          queueDeformCommand env2 zero ops self2 inst_dxr2 = .ok (true, self3, inst3) →
          ∃ mesh3 r3, inst3.mesh = some mesh3 ∧ mesh3.bs_point_delta = some r3 ∧
            r3.width = r.width ∧ r3.data = r.data)) ∧
    ((∀ n, env.createOk n = true) → self.m_rootsig_deform = true →
      self.m_pipeline_state = true → AssetInRange inst_dxr.base mesh_dxr.base →
      SizesFit inst_dxr.base mesh_dxr.base →
      ∃ self1 inst1, queueDeformCommand env zero ops self inst_dxr = .ok (true, self1, inst1)) := by
  constructor
  · intro self1 inst1 hrun
    obtain ⟨mesh1, r, hm1, hr, hw, hp⟩ := point_delta_after hmap hmesh hnone hB hrun
    obtain ⟨hlen, hel⟩ := pointDelta_ok _ _ _ _ _ _ hp
    refine ⟨mesh1, r, hm1, hr, ?_, by rw [hlen, Nat.mul_comm], ?_, ?_⟩
    · rw [hw]; exact width_size_arg _ hsize
    · intro bsi vi hb hv
      obtain ⟨bs, fr, d, h1, h2, h3, h4⟩ := hel bsi vi hb hv
      simp only [Nat.zero_add] at h1
      exact ⟨bs, fr, d, h1, h2, h3, h4⟩
    · intro env2 self2 self3 inst_dxr2 inst3 mesh_dxr2 hmap2 hmesh2 hnone2 hV hB2 hfr hrun2
      obtain ⟨mesh3, r3, hm3, hr3, hw3, hp3⟩ :=
        point_delta_after hmap2 hmesh2 hnone2 (by rw [hB2]; exact hB) hrun2
      rw [hV, hB2] at hw3
      rw [hV, hB2, pointDelta_first_frames zero mesh_dxr2.base.blendshapes
        mesh_dxr.base.blendshapes _ _ 0 (by intro j hj; simpa using hfr j hj), hp] at hp3
      injection hp3 with hp3
      exact ⟨mesh3, r3, hm3, hr3, by rw [hw3, hw], hp3.symm⟩
  · intro hc hroot hpipe hwf _
    exact queueDeformCommand_returns zero ops self inst_dxr mesh_dxr hc hmap hroot hpipe hmesh
      (Or.inl hB) hwf

/-- C10 (amended) at a concrete input: the first call for a two-weight instance of the example
mesh (two vertices, two blendshapes of two frames); the same four elements are written for the
mesh whose later frames were replaced. -/
theorem point_delta_built_witness :
    (∀ n, envOk.mapOk n = true) ∧
    (freshInstance baseBlend (some exampleMeshDXR)).mesh = some exampleMeshDXR ∧
    exampleMeshDXR.bs_point_delta = none ∧
    0 < (freshInstance baseBlend (some exampleMeshDXR)).base.blendshape_weights.length ∧
    sizeof_float4 * exampleMeshDXR.base.vertex_count *
      (freshInstance baseBlend (some exampleMeshDXR)).base.blendshape_weights.length <
        2147483648 ∧
    firstCall envOk baseBlend =
      .ok (true, deformerAfterFirst envOk baseBlend, instanceAfterFirst envOk baseBlend) ∧
    (((instanceAfterFirst envOk baseBlend).mesh.bind (·.bs_point_delta)).map (·.data)) =
      some [(1, 2, 3, 0), (4, 5, 6, 0), (-1, -2, -3, 0), (-4, -5, -6, 0)] ∧
    (((instanceAfter (freshInstance baseBlend
          (some { exampleMeshDXR with base := exampleMeshOtherFrames }))
        firstCallOtherFrames).mesh.bind (·.bs_point_delta)).map (·.data)) =
      some [(1, 2, 3, 0), (4, 5, 6, 0), (-1, -2, -3, 0), (-4, -5, -6, 0)] ∧
    ∃ mesh1 r, (instanceAfterFirst envOk baseBlend).mesh = some mesh1 ∧
      mesh1.bs_point_delta = some r ∧ r.width = 16 * 2 * 2 ∧ r.data.length = 2 * 2 ∧
      (∀ bsi vi, bsi < 2 → vi < 2 → ∃ bs fr d,
        exampleMesh.blendshapes[bsi]? = some bs ∧ bs.frames[0]? = some fr ∧
        fr.delta[vi]? = some d ∧ r.data[bsi * 2 + vi]? = some (to_float4 d 0)) :=
  ⟨fun _ => rfl, rfl, rfl, by decide, by decide, rfl, by decide, by decide,
    let ⟨mesh1, r, h1, h2, h3, h4, h5, _⟩ :=
      (point_delta_built envOk (0 : Int) exampleOps exampleDeformer
        (freshInstance baseBlend (some exampleMeshDXR)) exampleMeshDXR
        (fun _ => rfl) rfl rfl (by decide) (by decide)).1 (deformerAfterFirst envOk baseBlend)
        (instanceAfterFirst envOk baseBlend) rfl
    ⟨mesh1, r, h1, h2, h3, h4, h5⟩⟩

end claims

end rths
